import Mathlib

/-!
# Pimoroni trackball driver (`drivers/trackball/pimoroni.c`, `pimoroni.h`)

A shallow embedding of the polling driver.  Machine integers are `Nat`/`Int`
with the narrowing of each C assignment written out: `uint8_t` stores are
`% 256`, `int8_t` stores are `to_int8` (two's-complement wrap, which is what
the compilers used for this firmware do on an out-of-range conversion).

The register transport, the key matrix, the pointer report and the two weak
handlers are collaborators of the driver.  The transport is an oracle giving,
for one poll, the status and buffer contents of each register access; the
matrix, the report and the LED array are fields of `World`; the handlers are
parameters.  Every call the driver makes to a collaborator is recorded in
the trace returned next to the new `World`.

A handler is taken by what it does to the record it is handed and by the
calls to `process_trackball_user` it makes; what the body of an override does
to the rest of the firmware is outside the driver and outside this model.
-/

namespace Pimoroni

/-! ## Integer conversions -/

/-- Conversion of an `int` to `int8_t`: reduction modulo 256 into -128..127. -/
def to_int8 (v : Int) : Int := (v + 128) % 256 - 128

/-- Bitwise complement of `x` restricted to the low `n` bits: what remains of
`~x` once the result is stored in (or and-ed with) an `n`-bit unsigned. -/
def lnot_bits (n x : Nat) : Nat := (2 ^ n - 1) ^^^ (x % 2 ^ n)

/-! ## Constants of `pimoroni.c` and `pimoroni.h` -/

/-- Modelled from the spec: the transport status type of `i2c_master.h`
("a status code", success or a failure variant), an integer code. -/
abbrev i2c_status_t := Int

/-- Modelled from the spec: the success status of `i2c_master.h`; every other
value is a failure variant. -/
def I2C_STATUS_SUCCESS : i2c_status_t := 0

def LED_REG : Nat := 0x00
def INPUT_REG : Nat := 0x04
def INTERRUPT_REG : Nat := 0xF9

def MSK_BTN_STATE : Nat := 0b10000000
def MSK_BTN_CHANGE : Nat := 0b00000001
def MSK_INT_TRIGGER : Nat := 0b00000001

/-- Enumerators of `trackball_flags_t`. -/
def TB_MOVED : Nat := 0b01
def TB_BUTTON : Nat := 0b10
def TB_BOTH : Nat := 0b11

/-- Modelled from the spec: `MOUSE_BTN1` of `report.h`, the mask of mouse
button 1 (left click) in the report's button bitmask. -/
def MOUSE_BTN1 : Nat := 1

/-- Modelled from the spec: `MATRIX_ROW_SHIFTER` of `matrix.h`, the row word
with only column 0 set. -/
def MATRIX_ROW_SHIFTER : Nat := 1

/-- Width in bits used for a `trackball_flags_t` object when `~TB_BUTTON` is
and-ed into it (the enum is stored in an unsigned of at most this width). -/
def FLAGS_BITS : Nat := 32

/-! ## Data -/

/-- The input block `input_t`: five `uint8_t`. -/
structure input_t where
  left : Nat
  right : Nat
  up : Nat
  down : Nat
  button : Nat
deriving DecidableEq, Repr

/-- The event record `trackball_record_t`: `int8_t x, y; bool pressed;
trackball_flags_t type`. -/
structure trackball_record_t where
  x : Int
  y : Int
  pressed : Bool
  type : Nat
deriving DecidableEq, Repr

/-- Modelled from the spec: `report_mouse_t` of `report.h`, the pointer
report: a `uint8_t` button bitmask and the pending `int8_t` displacement. -/
structure report_mouse_t where
  buttons : Nat
  x : Int
  y : Int
deriving DecidableEq, Repr

/-- Modelled from the spec: an entry `LED_TYPE` of the underglow array of
`rgblight.c`, of which the driver reads the three colour bytes. -/
structure LED_TYPE where
  r : Nat
  g : Nat
  b : Nat
deriving DecidableEq, Repr

/-- The compile-time configuration: the macros the driver is built with.
`TRACKBALL_MATRIX` is `some (row, col)` when both `TRACKBALL_MATRIX_ROW` and
`TRACKBALL_MATRIX_COL` are defined; `TRACKBALL_RGBLIGHT` is `some i` when
that macro is defined; `MATRIX_ROW_BITS` is the width of `matrix_row_t`. -/
structure Config where
  TRACKBALL_ADDRESS : Nat := 0x0A
  TRACKBALL_TIMEOUT : Nat := 100
  TRACKBALL_ORIENTATION : Nat := 0
  TRACKBALL_MOUSE_BTN : Nat := MOUSE_BTN1
  TRACKBALL_MATRIX : Option (Nat × Nat) := none
  TRACKBALL_RGBLIGHT : Option Nat := none
  POINTING_DEVICE_ENABLE : Bool := false
  MATRIX_ROW_BITS : Nat := 8
deriving DecidableEq, Repr

/-- The configuration `pimoroni.h` gives when nothing is defined by the
keyboard. -/
def default_config : Config := {}

/-- The state the driver shares with the rest of the firmware: the key
matrix `matrix[MATRIX_ROWS]`, the report held by the pointing device, and
the underglow array `led[RGBLED_NUM]`. -/
structure World where
  matrix : List Nat
  mouseReport : report_mouse_t
  led : List LED_TYPE
deriving DecidableEq, Repr

/-- One call made by the driver to a collaborator. -/
inductive Call where
  | i2c_readReg (devaddr regaddr length timeout : Nat)
  | i2c_writeReg (devaddr regaddr : Nat) (data : List Nat) (timeout : Nat)
  | process_trackball_kb (record : trackball_record_t)
  | process_trackball_user (record : trackball_record_t)
  | pointing_device_set_report (report : report_mouse_t)
deriving DecidableEq, Repr

/-- The register transport during one poll: for a read, the status returned
and the bytes left in the caller's buffer; for a write, the status. -/
structure Transport where
  readReg : (devaddr regaddr length timeout : Nat) → i2c_status_t × List Nat
  writeReg : (devaddr regaddr : Nat) → (data : List Nat) → (timeout : Nat) → i2c_status_t

/-- What the body of `process_trackball_user` does to the record it is
handed by pointer. -/
abbrev user_handler_t := trackball_record_t → trackball_record_t

/-- What the linked `process_trackball_kb` does: the record it leaves behind
and, in order, the records it handed to `process_trackball_user`. -/
abbrev kb_handler_t := trackball_record_t → trackball_record_t × List trackball_record_t

/-! ## Handlers -/

/-- The weak default `process_trackball_user`: `{ return; }`. -/
def process_trackball_user : user_handler_t := fun record => record

/-- The weak default `process_trackball_kb`:
`{ return process_trackball_user(record); }`, over whichever
`process_trackball_user` is linked. -/
def process_trackball_kb (user : user_handler_t) : kb_handler_t :=
  fun record => (user record, [record])

/-! ## Pointing device -/

/-- Modelled from the spec: `pointing_device_get_report` of
`pointing_device.h` returns the report currently held. -/
def pointing_device_get_report (w : World) : report_mouse_t := w.mouseReport

/-- Modelled from the spec: `pointing_device_set_report` of
`pointing_device.h` replaces the report currently held. -/
def pointing_device_set_report (report : report_mouse_t) (w : World) : World :=
  { w with mouseReport := report }

/-! ## LED -/

/-- The function `trackball_setrgb`: one register write of `{ r, g, b, 0 }`,
the arguments converted to `uint8_t`; returns the status and the call made. -/
def trackball_setrgb (cfg : Config) (bus : Transport) (r g b : Nat) :
    i2c_status_t × List Call :=
  let led_buf := [r % 256, g % 256, b % 256, 0]
  (bus.writeReg (cfg.TRACKBALL_ADDRESS <<< 1) LED_REG led_buf cfg.TRACKBALL_TIMEOUT,
   [Call.i2c_writeReg (cfg.TRACKBALL_ADDRESS <<< 1) LED_REG led_buf cfg.TRACKBALL_TIMEOUT])

/-- The function `trackball_sethsv`, over the conversion routine
`hsv_to_rgb` of the colour library. -/
def trackball_sethsv (cfg : Config) (bus : Transport)
    (hsv_to_rgb : Nat → Nat → Nat → LED_TYPE) (h s v : Nat) : i2c_status_t × List Call :=
  let out := hsv_to_rgb (h % 256) (s % 256) (v % 256)
  trackball_setrgb cfg bus out.r out.g out.b

/-! ## `trackball_task` -/

/-- Byte `i` of a buffer filled by the transport. -/
def buf_byte (buf : List Nat) (i : Nat) : Nat := buf.getD i 0 % 256

/-- The read of the interrupt register (lines 58-59): status and the byte
`interrupt`. -/
def read_interrupt (cfg : Config) (bus : Transport) : i2c_status_t × Nat :=
  let res := bus.readReg (cfg.TRACKBALL_ADDRESS <<< 1) INTERRUPT_REG 1 cfg.TRACKBALL_TIMEOUT
  (res.1, buf_byte res.2 0)

/-- The read of the input block (lines 65-66): status and the five bytes
laid out as `input_t`. -/
def read_input (cfg : Config) (bus : Transport) : i2c_status_t × input_t :=
  let res := bus.readReg (cfg.TRACKBALL_ADDRESS <<< 1) INPUT_REG 5 cfg.TRACKBALL_TIMEOUT
  (res.1, { left := buf_byte res.2 0, right := buf_byte res.2 1, up := buf_byte res.2 2,
            down := buf_byte res.2 3, button := buf_byte res.2 4 })

/-- Lines 71-97 of `trackball_task`: the record built from the input block. -/
def decode_record (cfg : Config) (input : input_t) : trackball_record_t :=
  let record : trackball_record_t := { x := 0, y := 0, pressed := false, type := 0 }
  let record : trackball_record_t :=
    if cfg.TRACKBALL_ORIENTATION = 0 then
      { record with
        x := to_int8 (record.x + ((input.right : Int) - (input.left : Int))),
        y := to_int8 (record.y + ((input.down : Int) - (input.up : Int))) }
    else if cfg.TRACKBALL_ORIENTATION = 1 then
      { record with
        x := to_int8 (record.x + ((input.up : Int) - (input.down : Int))),
        y := to_int8 (record.y + ((input.right : Int) - (input.left : Int))) }
    else if cfg.TRACKBALL_ORIENTATION = 2 then
      { record with
        x := to_int8 (record.x + ((input.left : Int) - (input.right : Int))),
        y := to_int8 (record.y + ((input.up : Int) - (input.down : Int))) }
    else
      { record with
        x := to_int8 (record.x + ((input.down : Int) - (input.up : Int))),
        y := to_int8 (record.y + ((input.left : Int) - (input.right : Int))) }
  let record : trackball_record_t :=
    if record.x ≠ 0 ∨ record.y ≠ 0 then { record with type := record.type ||| TB_MOVED }
    else record
  let record : trackball_record_t :=
    { record with pressed := decide (input.button &&& MSK_BTN_STATE ≠ 0) }
  if input.button &&& MSK_BTN_CHANGE ≠ 0 then { record with type := record.type ||| TB_BUTTON }
  else record

/-- Lines 101-108: the matrix step, compiled in when a binding is defined.
A row outside `matrix` has no meaning in C; here its read gives 0 and its
write is dropped, and the statements about the bound bit take the row inside
the matrix. -/
def matrix_step (cfg : Config) (record : trackball_record_t) (matrix : List Nat) :
    trackball_record_t × List Nat :=
  match cfg.TRACKBALL_MATRIX with
  | none => (record, matrix)
  | some (row, col) =>
    if record.type &&& TB_BUTTON ≠ 0 then
      let cleared := matrix.getD row 0 &&& lnot_bits cfg.MATRIX_ROW_BITS (MATRIX_ROW_SHIFTER <<< col)
      let written :=
        (cleared ||| (if record.pressed then MATRIX_ROW_SHIFTER <<< col else 0))
          % 2 ^ cfg.MATRIX_ROW_BITS
      ({ record with type := record.type &&& lnot_bits FLAGS_BITS TB_BUTTON },
       matrix.set row written)
    else (record, matrix)

/-- Lines 111-127: the merge of the record into the fetched report, and the
flag `send_report`. -/
def report_merge (cfg : Config) (record : trackball_record_t) (currentReport : report_mouse_t) :
    report_mouse_t × Bool :=
  let send_report := false
  let (currentReport, send_report) :=
    if record.type &&& TB_BUTTON ≠ 0 then
      if record.pressed then
        ({ currentReport with
           buttons := (currentReport.buttons ||| cfg.TRACKBALL_MOUSE_BTN) % 256 }, true)
      else
        ({ currentReport with
           buttons := currentReport.buttons &&& lnot_bits 8 cfg.TRACKBALL_MOUSE_BTN }, true)
    else (currentReport, send_report)
  if record.type &&& TB_MOVED ≠ 0 then
    ({ currentReport with
       x := to_int8 (currentReport.x + record.x),
       y := to_int8 (currentReport.y + record.y) }, true)
  else (currentReport, send_report)

/-- Lines 110-132: the pointer-report step, compiled in under
`POINTING_DEVICE_ENABLE`. -/
def pointer_step (cfg : Config) (record : trackball_record_t) (w : World) : World × List Call :=
  if cfg.POINTING_DEVICE_ENABLE then
    let merged := report_merge cfg record (pointing_device_get_report w)
    if merged.2 then
      (pointing_device_set_report merged.1 w, [Call.pointing_device_set_report merged.1])
    else (w, [])
  else (w, [])

/-- Lines 54-56: the mirror of an underglow LED, compiled in under
`TRACKBALL_RGBLIGHT`; the status is dropped. -/
def mirror_step (cfg : Config) (bus : Transport) (w : World) : List Call :=
  match cfg.TRACKBALL_RGBLIGHT with
  | none => []
  | some i =>
    let l := w.led.getD i { r := 0, g := 0, b := 0 }
    (trackball_setrgb cfg bus l.r l.g l.b).2

/-- The call `i2c_readReg` of line 59 as it appears in the trace. -/
def interrupt_read_call (cfg : Config) : Call :=
  Call.i2c_readReg (cfg.TRACKBALL_ADDRESS <<< 1) INTERRUPT_REG 1 cfg.TRACKBALL_TIMEOUT

/-- The call `i2c_readReg` of line 66 as it appears in the trace. -/
def input_read_call (cfg : Config) : Call :=
  Call.i2c_readReg (cfg.TRACKBALL_ADDRESS <<< 1) INPUT_REG 5 cfg.TRACKBALL_TIMEOUT

/-- The function `trackball_task`: one poll.  `kb` is the linked
`process_trackball_kb`.  Returns the new shared state and the calls made, in
order. -/
def trackball_task (cfg : Config) (bus : Transport) (kb : kb_handler_t) (w : World) :
    World × List Call :=
  let trace := mirror_step cfg bus w
  let interrupt := read_interrupt cfg bus
  let trace := trace ++ [interrupt_read_call cfg]
  if interrupt.1 ≠ I2C_STATUS_SUCCESS ∨ interrupt.2 &&& MSK_INT_TRIGGER = 0 then
    (w, trace)
  else
    let input := read_input cfg bus
    let trace := trace ++ [input_read_call cfg]
    if input.1 ≠ I2C_STATUS_SUCCESS then
      (w, trace)
    else
      let record := decode_record cfg input.2
      let handled := kb record
      let trace := trace ++ [Call.process_trackball_kb record]
        ++ handled.2.map Call.process_trackball_user
      let stepped := matrix_step cfg handled.1 w.matrix
      let w : World := { w with matrix := stepped.2 }
      let pointed := pointer_step cfg stepped.1 w
      (pointed.1, trace ++ pointed.2)

/-! ## Reading a trace -/

/-- The records with which `process_trackball_kb` was invoked, in order. -/
def kb_calls : List Call → List trackball_record_t
  | [] => []
  | Call.process_trackball_kb r :: cs => r :: kb_calls cs
  | _ :: cs => kb_calls cs

/-- The records with which `process_trackball_user` was invoked, in order. -/
def user_calls : List Call → List trackball_record_t
  | [] => []
  | Call.process_trackball_user r :: cs => r :: user_calls cs
  | _ :: cs => user_calls cs

/-- The reports written back with `pointing_device_set_report`, in order. -/
def set_report_calls : List Call → List report_mouse_t
  | [] => []
  | Call.pointing_device_set_report r :: cs => r :: set_report_calls cs
  | _ :: cs => set_report_calls cs

/-- A run of polls, one transport behaviour per poll: the state after the
last one and the calls of all of them. -/
def trackball_polls (cfg : Config) (kb : kb_handler_t) : List Transport → World → World × List Call
  | [], w => (w, [])
  | bus :: rest, w =>
    let first := trackball_task cfg bus kb w
    let later := trackball_polls cfg kb rest first.1
    (later.1, first.2 ++ later.2)

/-- The poll reads both registers successfully and the trigger bit is set:
the poll produces an event. -/
def triggered (cfg : Config) (bus : Transport) : Prop :=
  (read_interrupt cfg bus).1 = I2C_STATUS_SUCCESS ∧
  (read_interrupt cfg bus).2 &&& MSK_INT_TRIGGER ≠ 0 ∧
  (read_input cfg bus).1 = I2C_STATUS_SUCCESS

instance (cfg : Config) (bus : Transport) : Decidable (triggered cfg bus) := by
  unfold triggered; infer_instance

/-- A transport for one poll given by its answers: the interrupt read, the
input-block read and the status of writes. -/
def bus_of (int_status : i2c_status_t) (interrupt : Nat) (input_status : i2c_status_t)
    (input : List Nat) (write_status : i2c_status_t) : Transport where
  readReg := fun _ regaddr _ _ =>
    if regaddr = INTERRUPT_REG then (int_status, [interrupt]) else (input_status, input)
  writeReg := fun _ _ _ _ => write_status

/-- The rotation table of the orientation transform as the specification
documents it, over the integers: selector and (left, right, up, down). -/
def orientation_table (selector : Fin 4) (left right up down : Int) : Int × Int :=
  match selector with
  | 0 => (right - left, down - up)
  | 1 => (up - down, right - left)
  | 2 => (left - right, up - down)
  | 3 => (down - up, left - right)

/-- The table entry for an input block. -/
def table_of (selector : Fin 4) (input : input_t) : Int × Int :=
  orientation_table selector input.left input.right input.up input.down

/-- The configuration with the orientation selector set. -/
def with_orientation (cfg : Config) (selector : Nat) : Config :=
  { cfg with TRACKBALL_ORIENTATION := selector }

/-- The default handler chain: neither weak handler is overridden. -/
def default_chain : kb_handler_t := process_trackball_kb process_trackball_user

/-- A state used in examples: two matrix rows, a report with button 3 held
and some pending displacement, one underglow LED. -/
def example_world : World :=
  { matrix := [0, 0xF0], mouseReport := { buttons := 4, x := 100, y := -3 },
    led := [{ r := 10, g := 20, b := 30 }] }

/-- A configuration used in examples: pointer output only. -/
def pointer_config : Config := { POINTING_DEVICE_ENABLE := true }

/-- A configuration used in examples: matrix binding at row 1, column 2
together with pointer output. -/
def matrix_pointer_config : Config :=
  { TRACKBALL_MATRIX := some (1, 2), POINTING_DEVICE_ENABLE := true }

/-- A linked `process_trackball_kb` that consumes movement as the header's
"Intercept movement" example does: it clears TB_MOVED. -/
def intercept_movement : kb_handler_t :=
  fun record => ({ record with type := record.type &&& lnot_bits FLAGS_BITS TB_MOVED }, [])

/-- The handler invocations of a trace, in order, the other calls dropped. -/
def handler_calls : List Call → List Call
  | [] => []
  | Call.process_trackball_kb r :: cs => Call.process_trackball_kb r :: handler_calls cs
  | Call.process_trackball_user r :: cs => Call.process_trackball_user r :: handler_calls cs
  | _ :: cs => handler_calls cs

/-- An override of `process_trackball_kb` that leaves the record alone and
does not forward to `process_trackball_user`. -/
def kb_without_forward : kb_handler_t := fun record => (record, [])

/-- An override of `process_trackball_kb` that sets both type bits and
`pressed` on whatever record it is handed. -/
def kb_setting_bits : kb_handler_t :=
  fun record => ({ record with type := TB_BOTH, pressed := true }, [])

/-- The `process_trackball_user` of the header's "Custom acceleration"
example while `go_fast` is held: `record->x *= 20; record->y *= 20;` under
TB_MOVED. -/
def custom_acceleration : user_handler_t :=
  fun record =>
    if record.type &&& TB_MOVED ≠ 0 then
      { record with x := to_int8 (record.x * 20), y := to_int8 (record.y * 20) }
    else record

/-- Saturation to the signed 8-bit range, as the specification words the
narrowing it asks for. -/
def clamp_int8 (v : Int) : Int := if v < -128 then -128 else if 127 < v then 127 else v

/-- The quarter turn R(x, y) = (-y, x), with the negation taken in the
record's 8-bit arithmetic. -/
def quarter_turn (p : Int × Int) : Int × Int := (to_int8 (-p.2), p.1)

/-- The half turn (x, y) to (-x, -y) in the record's 8-bit arithmetic. -/
def half_turn (p : Int × Int) : Int × Int := (to_int8 (-p.1), to_int8 (-p.2))

/-- The (x, y) decoded from an input block under a selector. -/
def decoded_xy (cfg : Config) (selector : Nat) (input : input_t) : Int × Int :=
  ((decode_record (with_orientation cfg selector) input).x,
   (decode_record (with_orientation cfg selector) input).y)

/-- The type flags of `sub` are among those of `sup`: every bit set in `sub`
is set in `sup`. -/
def flags_subset (sub sup : Nat) : Prop := sub &&& sup = sub

instance (sub sup : Nat) : Decidable (flags_subset sub sup) := by
  unfold flags_subset; infer_instance

/-- How an `int8_t` value `x` stands to the integer `d` it was narrowed from:
it is `d` reduced modulo 256 into -128..127; it is the clamped `d` exactly
when `d` lies in -128..127, and then has the sign of `d`; above 127 it comes
out negative and below -128 positive. -/
def wrapped_from (d x : Int) : Prop :=
  x = to_int8 d ∧
  (x = clamp_int8 d ↔ (-128 ≤ d ∧ d ≤ 127)) ∧
  (-128 ≤ d ∧ d ≤ 127 → (0 < d → 0 < x) ∧ (d < 0 → x < 0)) ∧
  (127 < d → x < 0) ∧ (d < -128 → 0 < x)

/-- A stand-in for the colour library's `hsv_to_rgb`, used in examples: the
value on all three channels, tinted by hue and saturation. -/
def example_hsv_to_rgb (h s v : Nat) : LED_TYPE :=
  { r := v, g := (v + h) % 256, b := (v + s) % 256 }

/-! ## Shape of one poll -/

theorem kb_calls_append (xs ys : List Call) :
    kb_calls (xs ++ ys) = kb_calls xs ++ kb_calls ys := by
  induction xs with
  | nil => rfl
  | cons c cs ih => cases c <;> simp [kb_calls, ih]

theorem user_calls_append (xs ys : List Call) :
    user_calls (xs ++ ys) = user_calls xs ++ user_calls ys := by
  induction xs with
  | nil => rfl
  | cons c cs ih => cases c <;> simp [user_calls, ih]

theorem set_report_calls_append (xs ys : List Call) :
    set_report_calls (xs ++ ys) = set_report_calls xs ++ set_report_calls ys := by
  induction xs with
  | nil => rfl
  | cons c cs ih => cases c <;> simp [set_report_calls, ih]

theorem mirror_step_quiet (cfg : Config) (bus : Transport) (w : World) :
    kb_calls (mirror_step cfg bus w) = [] ∧ user_calls (mirror_step cfg bus w) = [] ∧
    set_report_calls (mirror_step cfg bus w) = [] := by
  unfold mirror_step
  cases cfg.TRACKBALL_RGBLIGHT <;>
    simp [trackball_setrgb, kb_calls, user_calls, set_report_calls]

theorem kb_calls_map_user (rs : List trackball_record_t) :
    kb_calls (rs.map Call.process_trackball_user) = [] := by
  induction rs with
  | nil => rfl
  | cons r rs ih => simp [kb_calls, ih]

theorem user_calls_map_user (rs : List trackball_record_t) :
    user_calls (rs.map Call.process_trackball_user) = rs := by
  induction rs with
  | nil => rfl
  | cons r rs ih => simp [user_calls, ih]

theorem set_report_calls_map_user (rs : List trackball_record_t) :
    set_report_calls (rs.map Call.process_trackball_user) = [] := by
  induction rs with
  | nil => rfl
  | cons r rs ih => simp [set_report_calls, ih]

/-- A poll whose interrupt read fails or shows no trigger returns at line 62. -/
theorem trackball_task_no_trigger (cfg : Config) (bus : Transport) (kb : kb_handler_t)
    (w : World)
    (h : (read_interrupt cfg bus).1 ≠ I2C_STATUS_SUCCESS ∨
      (read_interrupt cfg bus).2 &&& MSK_INT_TRIGGER = 0) :
    trackball_task cfg bus kb w = (w, mirror_step cfg bus w ++ [interrupt_read_call cfg]) := by
  unfold trackball_task
  simp only [if_pos h]

/-- A poll whose input-block read fails returns at line 68. -/
theorem trackball_task_input_failed (cfg : Config) (bus : Transport) (kb : kb_handler_t)
    (w : World)
    (h1 : (read_interrupt cfg bus).1 = I2C_STATUS_SUCCESS)
    (h2 : (read_interrupt cfg bus).2 &&& MSK_INT_TRIGGER ≠ 0)
    (h3 : (read_input cfg bus).1 ≠ I2C_STATUS_SUCCESS) :
    trackball_task cfg bus kb w =
      (w, mirror_step cfg bus w ++ [interrupt_read_call cfg] ++ [input_read_call cfg]) := by
  unfold trackball_task
  have h : ¬ ((read_interrupt cfg bus).1 ≠ I2C_STATUS_SUCCESS ∨
      (read_interrupt cfg bus).2 &&& MSK_INT_TRIGGER = 0) := by
    intro h; rcases h with h | h
    · exact h h1
    · exact h2 h
  simp only [if_neg h, if_pos h3]

/-- A poll that produces an event runs lines 71-132. -/
theorem trackball_task_triggered (cfg : Config) (bus : Transport) (kb : kb_handler_t)
    (w : World) (h : triggered cfg bus) :
    trackball_task cfg bus kb w =
      ((pointer_step cfg
          (matrix_step cfg (kb (decode_record cfg (read_input cfg bus).2)).1 w.matrix).1
          { w with matrix :=
              (matrix_step cfg (kb (decode_record cfg (read_input cfg bus).2)).1 w.matrix).2 }).1,
       mirror_step cfg bus w ++ [interrupt_read_call cfg] ++ [input_read_call cfg]
         ++ [Call.process_trackball_kb (decode_record cfg (read_input cfg bus).2)]
         ++ (kb (decode_record cfg (read_input cfg bus).2)).2.map Call.process_trackball_user
         ++ (pointer_step cfg
          (matrix_step cfg (kb (decode_record cfg (read_input cfg bus).2)).1 w.matrix).1
          { w with matrix :=
              (matrix_step cfg (kb (decode_record cfg (read_input cfg bus).2)).1 w.matrix).2 }).2) := by
  obtain ⟨h1, h2, h3⟩ := h
  unfold trackball_task
  have h : ¬ ((read_interrupt cfg bus).1 ≠ I2C_STATUS_SUCCESS ∨
      (read_interrupt cfg bus).2 &&& MSK_INT_TRIGGER = 0) := by
    intro h; rcases h with h | h
    · exact h h1
    · exact h2 h
  have h3' : ¬ ((read_input cfg bus).1 ≠ I2C_STATUS_SUCCESS) := fun hn => hn h3
  simp only [if_neg h, if_neg h3']

theorem pointer_step_kb_user_quiet (cfg : Config) (record : trackball_record_t) (w : World) :
    kb_calls (pointer_step cfg record w).2 = [] ∧
    user_calls (pointer_step cfg record w).2 = [] := by
  unfold pointer_step
  by_cases he : cfg.POINTING_DEVICE_ENABLE = true
  · by_cases hs : (report_merge cfg record (pointing_device_get_report w)).2 = true
    · simp [he, hs, kb_calls, user_calls]
    · simp [he, hs, kb_calls, user_calls]
  · simp [he, kb_calls, user_calls]

/-- On a poll that produces an event, `process_trackball_kb` is invoked
exactly once, with the decoded record. -/
theorem kb_calls_triggered (cfg : Config) (bus : Transport) (kb : kb_handler_t)
    (w : World) (h : triggered cfg bus) :
    kb_calls (trackball_task cfg bus kb w).2 = [decode_record cfg (read_input cfg bus).2] := by
  rw [trackball_task_triggered cfg bus kb w h]
  simp [kb_calls_append, (mirror_step_quiet cfg bus w).1, kb_calls_map_user,
    (pointer_step_kb_user_quiet cfg _ _).1, kb_calls, interrupt_read_call, input_read_call]

/-! ## The decoder -/

theorem to_int8_of_range (v : Int) (h1 : -128 ≤ v) (h2 : v ≤ 127) : to_int8 v = v := by
  unfold to_int8; omega

theorem to_int8_range (v : Int) : -128 ≤ to_int8 v ∧ to_int8 v ≤ 127 := by
  unfold to_int8; omega

theorem and_two_pow_ne_zero (n i : Nat) : n &&& 2 ^ i ≠ 0 ↔ n.testBit i = true := by
  constructor
  · intro h
    by_contra hb
    apply h
    apply Nat.eq_of_testBit_eq
    intro j
    rw [Nat.testBit_and, Nat.testBit_two_pow, Nat.zero_testBit]
    by_cases hij : i = j
    · subst hij; simp [hb]
    · simp [hij]
  · intro hb h0
    have : (n &&& 2 ^ i).testBit i = true := by
      rw [Nat.testBit_and, Nat.testBit_two_pow_self, hb]; rfl
    rw [h0, Nat.zero_testBit] at this
    exact Bool.noConfusion this

theorem decode_record_x (cfg : Config) (selector : Fin 4) (input : input_t) :
    (decode_record (with_orientation cfg selector) input).x
      = to_int8 (table_of selector input).1 := by
  fin_cases selector <;>
    simp [decode_record, with_orientation, table_of, orientation_table] <;>
    split_ifs <;> rfl

theorem decode_record_y (cfg : Config) (selector : Fin 4) (input : input_t) :
    (decode_record (with_orientation cfg selector) input).y
      = to_int8 (table_of selector input).2 := by
  fin_cases selector <;>
    simp [decode_record, with_orientation, table_of, orientation_table] <;>
    split_ifs <;> rfl

theorem decode_record_moved (cfg : Config) (input : input_t) :
    (decode_record cfg input).type &&& TB_MOVED ≠ 0 ↔
      ((decode_record cfg input).x ≠ 0 ∨ (decode_record cfg input).y ≠ 0) := by
  unfold decode_record
  simp only []
  split_ifs <;> simp_all [TB_MOVED, TB_BUTTON]

theorem decode_record_pressed (cfg : Config) (input : input_t) :
    (decode_record cfg input).pressed = input.button.testBit 7 := by
  have h := and_two_pow_ne_zero input.button 7
  unfold decode_record
  simp only []
  split_ifs <;> simp only [MSK_BTN_STATE] <;>
    by_cases hb : input.button.testBit 7 = true <;> simp_all

theorem decode_record_button (cfg : Config) (input : input_t) :
    (decode_record cfg input).type &&& TB_BUTTON ≠ 0 ↔ input.button.testBit 0 = true := by
  have h := and_two_pow_ne_zero input.button 0
  unfold decode_record
  simp only [MSK_BTN_CHANGE] at *
  split_ifs <;> simp_all [TB_MOVED, TB_BUTTON]

/-! ## Claims about the decoder -/

/-- C1, as stated, fails: under selector 0 the block (left=0, right=200,
up=0, down=0) is decoded to (x, y) = (-56, 0), not to the table entry
(200 - 0, 0 - 0). -/
theorem C1_table_as_integers_fails :
    (kb_calls (trackball_task (with_orientation default_config 0)
        (bus_of 0 1 0 [0, 200, 0, 0, 0] 0) default_chain example_world).2).map
        (fun r => (r.x, r.y)) = [(-56, 0)] ∧
    (kb_calls (trackball_task (with_orientation default_config 0)
        (bus_of 0 1 0 [0, 200, 0, 0, 0] 0) default_chain example_world).2).map
        (fun r => (r.x, r.y)) ≠
      [table_of 0 (read_input (with_orientation default_config 0)
        (bus_of 0 1 0 [0, 200, 0, 0, 0] 0)).2] := by
  decide

/-- C1, amended: for every selector in 0..3 and every input block read on a
poll that produces an event, the record handed to `process_trackball_kb` has
x and y equal to the table's differences narrowed to `int8_t` (reduced modulo
256 into -128..127); each equals its difference as an integer whenever that
difference lies in -128..127. -/
theorem C1_table_narrowed (cfg : Config) (selector : Fin 4) (bus : Transport)
    (kb : kb_handler_t) (w : World) (h : triggered (with_orientation cfg selector) bus) :
    ∃ r, kb_calls (trackball_task (with_orientation cfg selector) bus kb w).2 = [r] ∧
      r.x = to_int8 (table_of selector (read_input (with_orientation cfg selector) bus).2).1 ∧
      r.y = to_int8 (table_of selector (read_input (with_orientation cfg selector) bus).2).2 ∧
      (-128 ≤ (table_of selector (read_input (with_orientation cfg selector) bus).2).1 ∧
        (table_of selector (read_input (with_orientation cfg selector) bus).2).1 ≤ 127 →
        r.x = (table_of selector (read_input (with_orientation cfg selector) bus).2).1) ∧
      (-128 ≤ (table_of selector (read_input (with_orientation cfg selector) bus).2).2 ∧
        (table_of selector (read_input (with_orientation cfg selector) bus).2).2 ≤ 127 →
        r.y = (table_of selector (read_input (with_orientation cfg selector) bus).2).2) := by
  refine ⟨_, kb_calls_triggered _ bus kb w h, decode_record_x cfg selector _,
    decode_record_y cfg selector _, ?_, ?_⟩
  · intro hr
    rw [decode_record_x cfg selector _]
    exact to_int8_of_range _ hr.1 hr.2
  · intro hr
    rw [decode_record_y cfg selector _]
    exact to_int8_of_range _ hr.1 hr.2

/-- C1, amended, at the block (left=1, right=0, up=0, down=0) under selector
1, where the table gives (0, -1). -/
theorem C1_table_narrowed_witness :
    triggered (with_orientation default_config ((1 : Fin 4) : Nat))
      (bus_of 0 1 0 [1, 0, 0, 0, 0] 0) ∧
    table_of 1 (read_input (with_orientation default_config ((1 : Fin 4) : Nat))
      (bus_of 0 1 0 [1, 0, 0, 0, 0] 0)).2 = (0, -1) ∧
    ∃ r, kb_calls (trackball_task (with_orientation default_config ((1 : Fin 4) : Nat))
        (bus_of 0 1 0 [1, 0, 0, 0, 0] 0) default_chain example_world).2 = [r] ∧
      r.x = to_int8 (table_of 1 (read_input (with_orientation default_config ((1 : Fin 4) : Nat))
        (bus_of 0 1 0 [1, 0, 0, 0, 0] 0)).2).1 ∧
      r.y = to_int8 (table_of 1 (read_input (with_orientation default_config ((1 : Fin 4) : Nat))
        (bus_of 0 1 0 [1, 0, 0, 0, 0] 0)).2).2 ∧
      (-128 ≤ (table_of 1 (read_input (with_orientation default_config ((1 : Fin 4) : Nat))
          (bus_of 0 1 0 [1, 0, 0, 0, 0] 0)).2).1 ∧
        (table_of 1 (read_input (with_orientation default_config ((1 : Fin 4) : Nat))
          (bus_of 0 1 0 [1, 0, 0, 0, 0] 0)).2).1 ≤ 127 →
        r.x = (table_of 1 (read_input (with_orientation default_config ((1 : Fin 4) : Nat))
          (bus_of 0 1 0 [1, 0, 0, 0, 0] 0)).2).1) ∧
      (-128 ≤ (table_of 1 (read_input (with_orientation default_config ((1 : Fin 4) : Nat))
          (bus_of 0 1 0 [1, 0, 0, 0, 0] 0)).2).2 ∧
        (table_of 1 (read_input (with_orientation default_config ((1 : Fin 4) : Nat))
          (bus_of 0 1 0 [1, 0, 0, 0, 0] 0)).2).2 ≤ 127 →
        r.y = (table_of 1 (read_input (with_orientation default_config ((1 : Fin 4) : Nat))
          (bus_of 0 1 0 [1, 0, 0, 0, 0] 0)).2).2) :=
  ⟨by decide, by decide,
    C1_table_narrowed default_config 1 (bus_of 0 1 0 [1, 0, 0, 0, 0] 0) default_chain
      example_world (by decide)⟩

/-- C4: on every poll that produces an event, under every selector, the
record handed to `process_trackball_kb` has TB_MOVED set in `type` if and
only if its x is non-zero or its y is non-zero. -/
theorem C4_moved_iff_nonzero (cfg : Config) (bus : Transport) (kb : kb_handler_t) (w : World)
    (h : triggered cfg bus) :
    ∃ r, kb_calls (trackball_task cfg bus kb w).2 = [r] ∧
      (r.type &&& TB_MOVED ≠ 0 ↔ (r.x ≠ 0 ∨ r.y ≠ 0)) :=
  ⟨_, kb_calls_triggered cfg bus kb w h, decode_record_moved cfg _⟩

/-- C4 at a poll with motion to the right under selector 0. -/
theorem C4_moved_iff_nonzero_witness :
    triggered default_config (bus_of 0 1 0 [0, 3, 0, 0, 0] 0) ∧
    ∃ r, kb_calls (trackball_task default_config (bus_of 0 1 0 [0, 3, 0, 0, 0] 0)
        default_chain example_world).2 = [r] ∧
      (r.type &&& TB_MOVED ≠ 0 ↔ (r.x ≠ 0 ∨ r.y ≠ 0)) :=
  ⟨by decide,
    C4_moved_iff_nonzero default_config (bus_of 0 1 0 [0, 3, 0, 0, 0] 0) default_chain
      example_world (by decide)⟩

/-- C5: on every poll that produces an event, with button byte b, the record
handed to `process_trackball_kb` has `pressed` equal to bit 7 of b and has
TB_BUTTON set exactly when bit 0 of b is 1; any other button byte with the
same bit 7 and bit 0 decodes to the same `pressed` and the same TB_BUTTON
flag, so bits 1..6 influence neither. -/
theorem C5_button_decoding (cfg : Config) (bus : Transport) (kb : kb_handler_t) (w : World)
    (h : triggered cfg bus) :
    ∃ r, kb_calls (trackball_task cfg bus kb w).2 = [r] ∧
      r.pressed = (read_input cfg bus).2.button.testBit 7 ∧
      (r.type &&& TB_BUTTON ≠ 0 ↔ (read_input cfg bus).2.button.testBit 0 = true) ∧
      ∀ b : Nat, b.testBit 7 = (read_input cfg bus).2.button.testBit 7 →
        b.testBit 0 = (read_input cfg bus).2.button.testBit 0 →
        (decode_record cfg { (read_input cfg bus).2 with button := b }).pressed = r.pressed ∧
        ((decode_record cfg { (read_input cfg bus).2 with button := b }).type &&& TB_BUTTON ≠ 0
          ↔ r.type &&& TB_BUTTON ≠ 0) := by
  refine ⟨_, kb_calls_triggered cfg bus kb w h, decode_record_pressed cfg _,
    decode_record_button cfg _, ?_⟩
  intro b h7 h0
  constructor
  · rw [decode_record_pressed, decode_record_pressed]; exact h7
  · rw [decode_record_button, decode_record_button, h0]

/-- C5 at a poll whose button byte is 0x81 (state and change both set). -/
theorem C5_button_decoding_witness :
    triggered default_config (bus_of 0 1 0 [0, 0, 0, 0, 0x81] 0) ∧
    ∃ r, kb_calls (trackball_task default_config (bus_of 0 1 0 [0, 0, 0, 0, 0x81] 0)
        default_chain example_world).2 = [r] ∧
      r.pressed = (read_input default_config
        (bus_of 0 1 0 [0, 0, 0, 0, 0x81] 0)).2.button.testBit 7 ∧
      (r.type &&& TB_BUTTON ≠ 0 ↔ (read_input default_config
        (bus_of 0 1 0 [0, 0, 0, 0, 0x81] 0)).2.button.testBit 0 = true) ∧
      ∀ b : Nat, b.testBit 7 = (read_input default_config
          (bus_of 0 1 0 [0, 0, 0, 0, 0x81] 0)).2.button.testBit 7 →
        b.testBit 0 = (read_input default_config
          (bus_of 0 1 0 [0, 0, 0, 0, 0x81] 0)).2.button.testBit 0 →
        (decode_record default_config { (read_input default_config
          (bus_of 0 1 0 [0, 0, 0, 0, 0x81] 0)).2 with button := b }).pressed = r.pressed ∧
        ((decode_record default_config { (read_input default_config
          (bus_of 0 1 0 [0, 0, 0, 0, 0x81] 0)).2 with button := b }).type &&& TB_BUTTON ≠ 0
          ↔ r.type &&& TB_BUTTON ≠ 0) :=
  ⟨by decide,
    C5_button_decoding default_config (bus_of 0 1 0 [0, 0, 0, 0, 0x81] 0) default_chain
      example_world (by decide)⟩

/-! ## Polls without an event -/

theorem quiet_no_trigger (cfg : Config) (bus : Transport) (w : World) :
    kb_calls (mirror_step cfg bus w ++ [interrupt_read_call cfg]) = [] ∧
    user_calls (mirror_step cfg bus w ++ [interrupt_read_call cfg]) = [] ∧
    set_report_calls (mirror_step cfg bus w ++ [interrupt_read_call cfg]) = [] := by
  obtain ⟨h1, h2, h3⟩ := mirror_step_quiet cfg bus w
  simp [kb_calls_append, user_calls_append, set_report_calls_append, h1, h2, h3,
    kb_calls, user_calls, set_report_calls, interrupt_read_call]

theorem quiet_input_failed (cfg : Config) (bus : Transport) (w : World) :
    kb_calls (mirror_step cfg bus w ++ [interrupt_read_call cfg] ++ [input_read_call cfg]) = [] ∧
    user_calls (mirror_step cfg bus w ++ [interrupt_read_call cfg] ++ [input_read_call cfg]) = [] ∧
    set_report_calls
      (mirror_step cfg bus w ++ [interrupt_read_call cfg] ++ [input_read_call cfg]) = [] := by
  obtain ⟨h1, h2, h3⟩ := mirror_step_quiet cfg bus w
  simp [kb_calls_append, user_calls_append, set_report_calls_append, h1, h2, h3,
    kb_calls, user_calls, set_report_calls, interrupt_read_call, input_read_call]

/-- C2: for every prior state, configuration and handler chain, when the
interrupt-register read returns a non-success status (whatever the buffer
holds), or it succeeds with the trigger bit set and the input-block read
returns a non-success status, `trackball_task` invokes neither
`process_trackball_kb` nor `process_trackball_user`, does not call
`pointing_device_set_report`, and leaves the matrix (indeed the whole shared
state) as it was. -/
theorem C2_transport_failure_no_event (cfg : Config) (bus : Transport) (kb : kb_handler_t)
    (w : World)
    (h : (read_interrupt cfg bus).1 ≠ I2C_STATUS_SUCCESS ∨
      ((read_interrupt cfg bus).1 = I2C_STATUS_SUCCESS ∧
       (read_interrupt cfg bus).2 &&& MSK_INT_TRIGGER ≠ 0 ∧
       (read_input cfg bus).1 ≠ I2C_STATUS_SUCCESS)) :
    kb_calls (trackball_task cfg bus kb w).2 = [] ∧
    user_calls (trackball_task cfg bus kb w).2 = [] ∧
    set_report_calls (trackball_task cfg bus kb w).2 = [] ∧
    (trackball_task cfg bus kb w).1.matrix = w.matrix ∧
    (trackball_task cfg bus kb w).1 = w := by
  rcases h with h | ⟨h1, h2, h3⟩
  · rw [trackball_task_no_trigger cfg bus kb w (Or.inl h)]
    obtain ⟨q1, q2, q3⟩ := quiet_no_trigger cfg bus w
    exact ⟨q1, q2, q3, rfl, rfl⟩
  · rw [trackball_task_input_failed cfg bus kb w h1 h2 h3]
    obtain ⟨q1, q2, q3⟩ := quiet_input_failed cfg bus w
    exact ⟨q1, q2, q3, rfl, rfl⟩

/-- C2 at a poll whose interrupt read succeeds with the trigger bit set and
whose input-block read times out leaving a press-and-move block behind, with
matrix binding, pointer output and LED mirror all configured. -/
theorem C2_transport_failure_no_event_witness :
    ((read_interrupt
        { TRACKBALL_MATRIX := some (1, 2), POINTING_DEVICE_ENABLE := true,
          TRACKBALL_RGBLIGHT := some 0 }
        (bus_of 0 1 (-2) [0, 9, 0, 0, 0x81] 0)).1 ≠ I2C_STATUS_SUCCESS ∨
      ((read_interrupt
        { TRACKBALL_MATRIX := some (1, 2), POINTING_DEVICE_ENABLE := true,
          TRACKBALL_RGBLIGHT := some 0 }
        (bus_of 0 1 (-2) [0, 9, 0, 0, 0x81] 0)).1 = I2C_STATUS_SUCCESS ∧
       (read_interrupt
        { TRACKBALL_MATRIX := some (1, 2), POINTING_DEVICE_ENABLE := true,
          TRACKBALL_RGBLIGHT := some 0 }
        (bus_of 0 1 (-2) [0, 9, 0, 0, 0x81] 0)).2 &&& MSK_INT_TRIGGER ≠ 0 ∧
       (read_input
        { TRACKBALL_MATRIX := some (1, 2), POINTING_DEVICE_ENABLE := true,
          TRACKBALL_RGBLIGHT := some 0 }
        (bus_of 0 1 (-2) [0, 9, 0, 0, 0x81] 0)).1 ≠ I2C_STATUS_SUCCESS)) ∧
    (kb_calls (trackball_task
        { TRACKBALL_MATRIX := some (1, 2), POINTING_DEVICE_ENABLE := true,
          TRACKBALL_RGBLIGHT := some 0 }
        (bus_of 0 1 (-2) [0, 9, 0, 0, 0x81] 0) default_chain example_world).2 = [] ∧
     user_calls (trackball_task
        { TRACKBALL_MATRIX := some (1, 2), POINTING_DEVICE_ENABLE := true,
          TRACKBALL_RGBLIGHT := some 0 }
        (bus_of 0 1 (-2) [0, 9, 0, 0, 0x81] 0) default_chain example_world).2 = [] ∧
     set_report_calls (trackball_task
        { TRACKBALL_MATRIX := some (1, 2), POINTING_DEVICE_ENABLE := true,
          TRACKBALL_RGBLIGHT := some 0 }
        (bus_of 0 1 (-2) [0, 9, 0, 0, 0x81] 0) default_chain example_world).2 = [] ∧
     (trackball_task
        { TRACKBALL_MATRIX := some (1, 2), POINTING_DEVICE_ENABLE := true,
          TRACKBALL_RGBLIGHT := some 0 }
        (bus_of 0 1 (-2) [0, 9, 0, 0, 0x81] 0) default_chain example_world).1.matrix
       = example_world.matrix ∧
     (trackball_task
        { TRACKBALL_MATRIX := some (1, 2), POINTING_DEVICE_ENABLE := true,
          TRACKBALL_RGBLIGHT := some 0 }
        (bus_of 0 1 (-2) [0, 9, 0, 0, 0x81] 0) default_chain example_world).1
       = example_world) :=
  ⟨by decide,
    C2_transport_failure_no_event
      { TRACKBALL_MATRIX := some (1, 2), POINTING_DEVICE_ENABLE := true,
        TRACKBALL_RGBLIGHT := some 0 }
      (bus_of 0 1 (-2) [0, 9, 0, 0, 0x81] 0) default_chain example_world (by decide)⟩

/-- A poll whose interrupt byte has bit 0 clear changes nothing and invokes
no handler, whatever the two read statuses and the input block. -/
theorem trackball_task_untriggered (cfg : Config) (bus : Transport) (kb : kb_handler_t)
    (w : World) (h : (read_interrupt cfg bus).2 &&& MSK_INT_TRIGGER = 0) :
    (trackball_task cfg bus kb w).1 = w ∧
    kb_calls (trackball_task cfg bus kb w).2 = [] ∧
    user_calls (trackball_task cfg bus kb w).2 = [] ∧
    set_report_calls (trackball_task cfg bus kb w).2 = [] := by
  rw [trackball_task_no_trigger cfg bus kb w (Or.inr h)]
  obtain ⟨q1, q2, q3⟩ := quiet_no_trigger cfg bus w
  exact ⟨rfl, q1, q2, q3⟩

/-- C3: for every n and every run of n polls in each of which the interrupt
byte has bit 0 clear (its other bits, the read statuses and the input block
being arbitrary), the matrix and the pointer report after the run equal those
before, no handler was invoked and no report was written back. -/
theorem C3_no_trigger_no_effect (cfg : Config) (kb : kb_handler_t) (buses : List Transport)
    (w : World)
    (h : ∀ bus ∈ buses, (read_interrupt cfg bus).2 &&& MSK_INT_TRIGGER = 0) :
    (trackball_polls cfg kb buses w).1.matrix = w.matrix ∧
    (trackball_polls cfg kb buses w).1.mouseReport = w.mouseReport ∧
    kb_calls (trackball_polls cfg kb buses w).2 = [] ∧
    user_calls (trackball_polls cfg kb buses w).2 = [] ∧
    set_report_calls (trackball_polls cfg kb buses w).2 = [] := by
  induction buses generalizing w with
  | nil => exact ⟨rfl, rfl, rfl, rfl, rfl⟩
  | cons bus rest ih =>
    obtain ⟨hw, hk, hu, hs⟩ :=
      trackball_task_untriggered cfg bus kb w (h bus (List.mem_cons_self bus rest))
    obtain ⟨i1, i2, i3, i4, i5⟩ :=
      ih (trackball_task cfg bus kb w).1 (fun b hb => h b (List.mem_cons_of_mem bus hb))
    simp only [trackball_polls, kb_calls_append, user_calls_append, set_report_calls_append,
      hk, hu, hs, i3, i4, i5, List.append_nil]
    exact ⟨i1.trans (congrArg World.matrix hw), i2.trans (congrArg World.mouseReport hw),
      trivial, trivial, trivial⟩

/-- C3 at a run of three untriggered polls: interrupt bytes 0x00, 0xFE and
0x02, the second over a press-and-move input block, the third with a failed
interrupt read. -/
theorem C3_no_trigger_no_effect_witness :
    (∀ bus ∈ [bus_of 0 0 0 [0, 0, 0, 0, 0] 0, bus_of 0 0xFE 0 [0, 9, 0, 0, 0x81] 0,
        bus_of (-1) 2 0 [7, 0, 0, 0, 1] 0],
      (read_interrupt { TRACKBALL_MATRIX := some (1, 2), POINTING_DEVICE_ENABLE := true } bus).2
        &&& MSK_INT_TRIGGER = 0) ∧
    ((trackball_polls { TRACKBALL_MATRIX := some (1, 2), POINTING_DEVICE_ENABLE := true }
        default_chain
        [bus_of 0 0 0 [0, 0, 0, 0, 0] 0, bus_of 0 0xFE 0 [0, 9, 0, 0, 0x81] 0,
          bus_of (-1) 2 0 [7, 0, 0, 0, 1] 0] example_world).1.matrix = example_world.matrix ∧
     (trackball_polls { TRACKBALL_MATRIX := some (1, 2), POINTING_DEVICE_ENABLE := true }
        default_chain
        [bus_of 0 0 0 [0, 0, 0, 0, 0] 0, bus_of 0 0xFE 0 [0, 9, 0, 0, 0x81] 0,
          bus_of (-1) 2 0 [7, 0, 0, 0, 1] 0] example_world).1.mouseReport
       = example_world.mouseReport ∧
     kb_calls (trackball_polls { TRACKBALL_MATRIX := some (1, 2), POINTING_DEVICE_ENABLE := true }
        default_chain
        [bus_of 0 0 0 [0, 0, 0, 0, 0] 0, bus_of 0 0xFE 0 [0, 9, 0, 0, 0x81] 0,
          bus_of (-1) 2 0 [7, 0, 0, 0, 1] 0] example_world).2 = [] ∧
     user_calls (trackball_polls
        { TRACKBALL_MATRIX := some (1, 2), POINTING_DEVICE_ENABLE := true } default_chain
        [bus_of 0 0 0 [0, 0, 0, 0, 0] 0, bus_of 0 0xFE 0 [0, 9, 0, 0, 0x81] 0,
          bus_of (-1) 2 0 [7, 0, 0, 0, 1] 0] example_world).2 = [] ∧
     set_report_calls (trackball_polls
        { TRACKBALL_MATRIX := some (1, 2), POINTING_DEVICE_ENABLE := true } default_chain
        [bus_of 0 0 0 [0, 0, 0, 0, 0] 0, bus_of 0 0xFE 0 [0, 9, 0, 0, 0x81] 0,
          bus_of (-1) 2 0 [7, 0, 0, 0, 1] 0] example_world).2 = []) :=
  ⟨by decide,
    C3_no_trigger_no_effect { TRACKBALL_MATRIX := some (1, 2), POINTING_DEVICE_ENABLE := true }
      default_chain
      [bus_of 0 0 0 [0, 0, 0, 0, 0] 0, bus_of 0 0xFE 0 [0, 9, 0, 0, 0x81] 0,
        bus_of (-1) 2 0 [7, 0, 0, 0, 1] 0] example_world (by decide)⟩

/-! ## The matrix step and the pointer-report step -/

theorem flags_clear_button (t : Nat) : (t &&& lnot_bits FLAGS_BITS TB_BUTTON) &&& TB_BUTTON = 0 := by
  rw [Nat.and_assoc]
  have h : lnot_bits FLAGS_BITS TB_BUTTON &&& TB_BUTTON = 0 := by decide
  rw [h, Nat.and_zero]

theorem flags_clear_button_moved (t : Nat) :
    (t &&& lnot_bits FLAGS_BITS TB_BUTTON) &&& TB_MOVED = t &&& TB_MOVED := by
  rw [Nat.and_assoc]
  have h : lnot_bits FLAGS_BITS TB_BUTTON &&& TB_MOVED = TB_MOVED := by decide
  rw [h]

/-- With a binding configured, TB_BUTTON is clear once the matrix step is
over, whether or not it was set before. -/
theorem matrix_step_button_clear (cfg : Config) (record : trackball_record_t)
    (matrix : List Nat) (row col : Nat) (hm : cfg.TRACKBALL_MATRIX = some (row, col)) :
    (matrix_step cfg record matrix).1.type &&& TB_BUTTON = 0 := by
  unfold matrix_step
  rw [hm]
  by_cases hb : record.type &&& TB_BUTTON ≠ 0
  · simp only [if_pos hb]
    exact flags_clear_button record.type
  · simp only [if_neg hb]
    exact not_not.mp hb

/-- The matrix step leaves TB_MOVED, x, y and `pressed` of the record alone. -/
theorem matrix_step_record (cfg : Config) (record : trackball_record_t) (matrix : List Nat) :
    (matrix_step cfg record matrix).1.type &&& TB_MOVED = record.type &&& TB_MOVED ∧
    (matrix_step cfg record matrix).1.x = record.x ∧
    (matrix_step cfg record matrix).1.y = record.y ∧
    (matrix_step cfg record matrix).1.pressed = record.pressed := by
  unfold matrix_step
  cases hm : cfg.TRACKBALL_MATRIX with
  | none => exact ⟨rfl, rfl, rfl, rfl⟩
  | some rc =>
    obtain ⟨row, col⟩ := rc
    by_cases hb : record.type &&& TB_BUTTON ≠ 0
    · simp only [if_pos hb, and_true]
      exact flags_clear_button_moved record.type
    · simp only [if_neg hb, and_true]

theorem matrix_step_none (cfg : Config) (record : trackball_record_t) (matrix : List Nat)
    (hm : cfg.TRACKBALL_MATRIX = none) : matrix_step cfg record matrix = (record, matrix) := by
  unfold matrix_step
  rw [hm]

/-- The bound bit after the two assignments of lines 104-105 is `pressed`. -/
theorem written_bit (bits col m : Nat) (pressed : Bool) (hc : col < bits) :
    (((m &&& lnot_bits bits (MATRIX_ROW_SHIFTER <<< col)) |||
        (if pressed then MATRIX_ROW_SHIFTER <<< col else 0)) % 2 ^ bits).testBit col
      = pressed := by
  cases pressed <;> simp [lnot_bits, MATRIX_ROW_SHIFTER, hc]

/-- With a binding inside the matrix and TB_BUTTON set, the bound bit after
the matrix step is `pressed`. -/
theorem matrix_step_bound_bit (cfg : Config) (record : trackball_record_t) (matrix : List Nat)
    (row col : Nat) (hm : cfg.TRACKBALL_MATRIX = some (row, col))
    (hb : record.type &&& TB_BUTTON ≠ 0) (hr : row < matrix.length)
    (hc : col < cfg.MATRIX_ROW_BITS) :
    ((matrix_step cfg record matrix).2.getD row 0).testBit col = record.pressed := by
  unfold matrix_step
  rw [hm]
  simp only [if_pos hb]
  rw [List.getD_eq_getElem _ _ (by rw [List.length_set]; exact hr), List.getElem_set_self]
  exact written_bit _ _ _ _ hc

theorem report_merge_send (cfg : Config) (record : trackball_record_t)
    (report : report_mouse_t) :
    (report_merge cfg record report).2 = true ↔
      (record.type &&& TB_BUTTON ≠ 0 ∨ record.type &&& TB_MOVED ≠ 0) := by
  unfold report_merge
  by_cases hb : record.type &&& TB_BUTTON ≠ 0 <;>
    by_cases hv : record.type &&& TB_MOVED ≠ 0 <;>
    by_cases hp : record.pressed = true <;> simp [hb, hv, hp]

theorem report_merge_buttons_kept (cfg : Config) (record : trackball_record_t)
    (report : report_mouse_t) (hb : record.type &&& TB_BUTTON = 0) :
    (report_merge cfg record report).1.buttons = report.buttons := by
  unfold report_merge
  by_cases hv : record.type &&& TB_MOVED ≠ 0 <;> simp [hb, hv]

theorem report_merge_motion_kept (cfg : Config) (record : trackball_record_t)
    (report : report_mouse_t) (hv : record.type &&& TB_MOVED = 0) :
    (report_merge cfg record report).1.x = report.x ∧
    (report_merge cfg record report).1.y = report.y := by
  unfold report_merge
  by_cases hb : record.type &&& TB_BUTTON ≠ 0 <;>
    by_cases hp : record.pressed = true <;> simp [hb, hv, hp]

theorem report_merge_buttons (cfg : Config) (record : trackball_record_t)
    (report : report_mouse_t) (hb : record.type &&& TB_BUTTON ≠ 0) :
    (report_merge cfg record report).1.buttons =
      if record.pressed then (report.buttons ||| cfg.TRACKBALL_MOUSE_BTN) % 256
      else report.buttons &&& lnot_bits 8 cfg.TRACKBALL_MOUSE_BTN := by
  unfold report_merge
  by_cases hv : record.type &&& TB_MOVED ≠ 0 <;>
    by_cases hp : record.pressed = true <;> simp [hb, hv, hp]

/-- The pointer-report step never touches the matrix or the LED array, and
the report it leaves is the merged one when the step is compiled in. -/
theorem pointer_step_world (cfg : Config) (record : trackball_record_t) (w : World) :
    (pointer_step cfg record w).1.matrix = w.matrix ∧
    (pointer_step cfg record w).1.led = w.led ∧
    (pointer_step cfg record w).1.mouseReport =
      if cfg.POINTING_DEVICE_ENABLE then (report_merge cfg record w.mouseReport).1
      else w.mouseReport := by
  unfold pointer_step pointing_device_get_report pointing_device_set_report
  by_cases he : cfg.POINTING_DEVICE_ENABLE = true
  · by_cases hs : (report_merge cfg record w.mouseReport).2 = true
    · simp [he, hs]
    · simp only [he, hs, if_true, if_false, Bool.false_eq_true, true_and]
      have hn := (not_congr (report_merge_send cfg record w.mouseReport)).mp hs
      have hb : record.type &&& TB_BUTTON = 0 := by
        by_contra h; exact hn (Or.inl h)
      have hv : record.type &&& TB_MOVED = 0 := by
        by_contra h; exact hn (Or.inr h)
      unfold report_merge
      simp [hb, hv]
  · simp [he]

/-- The calls of the pointer-report step: one write-back of the merged
report when `send_report` is set, none otherwise. -/
theorem pointer_step_calls (cfg : Config) (record : trackball_record_t) (w : World)
    (he : cfg.POINTING_DEVICE_ENABLE = true) :
    set_report_calls (pointer_step cfg record w).2 =
      if record.type &&& TB_BUTTON ≠ 0 ∨ record.type &&& TB_MOVED ≠ 0
      then [(report_merge cfg record w.mouseReport).1] else [] := by
  unfold pointer_step pointing_device_get_report
  by_cases hs : (report_merge cfg record w.mouseReport).2 = true
  · have hf := (report_merge_send cfg record w.mouseReport).mp hs
    simp only [he, hs, if_true, if_pos hf, set_report_calls]
  · have hf := (not_congr (report_merge_send cfg record w.mouseReport)).mp hs
    simp only [he, hs, if_true, if_neg hf, set_report_calls, Bool.false_eq_true, if_false]

/-- The calls to `pointing_device_set_report` of a poll that produces an
event are those of its pointer-report step. -/
theorem set_report_calls_triggered (cfg : Config) (bus : Transport) (kb : kb_handler_t)
    (w : World) (h : triggered cfg bus) :
    set_report_calls (trackball_task cfg bus kb w).2 =
      set_report_calls (pointer_step cfg
          (matrix_step cfg (kb (decode_record cfg (read_input cfg bus).2)).1 w.matrix).1
          { w with matrix :=
              (matrix_step cfg (kb (decode_record cfg (read_input cfg bus).2)).1 w.matrix).2 }).2 := by
  rw [trackball_task_triggered cfg bus kb w h]
  simp [set_report_calls_append, (mirror_step_quiet cfg bus w).2.2, set_report_calls_map_user,
    set_report_calls, interrupt_read_call, input_read_call]

/-! ## The shared state after one poll -/

theorem trackball_task_not_triggered (cfg : Config) (bus : Transport) (kb : kb_handler_t)
    (w : World) (h : ¬ triggered cfg bus) : (trackball_task cfg bus kb w).1 = w := by
  by_cases h1 : (read_interrupt cfg bus).1 = I2C_STATUS_SUCCESS
  · by_cases h2 : (read_interrupt cfg bus).2 &&& MSK_INT_TRIGGER = 0
    · rw [trackball_task_no_trigger cfg bus kb w (Or.inr h2)]
    · have h3 : (read_input cfg bus).1 ≠ I2C_STATUS_SUCCESS := fun h3 => h ⟨h1, h2, h3⟩
      rw [trackball_task_input_failed cfg bus kb w h1 h2 h3]
  · rw [trackball_task_no_trigger cfg bus kb w (Or.inl h1)]

theorem task_matrix_triggered (cfg : Config) (bus : Transport) (kb : kb_handler_t)
    (w : World) (h : triggered cfg bus) :
    (trackball_task cfg bus kb w).1.matrix =
      (matrix_step cfg (kb (decode_record cfg (read_input cfg bus).2)).1 w.matrix).2 := by
  rw [trackball_task_triggered cfg bus kb w h]
  exact (pointer_step_world cfg _ _).1

theorem task_report_triggered (cfg : Config) (bus : Transport) (kb : kb_handler_t)
    (w : World) (h : triggered cfg bus) :
    (trackball_task cfg bus kb w).1.mouseReport =
      if cfg.POINTING_DEVICE_ENABLE then
        (report_merge cfg
          (matrix_step cfg (kb (decode_record cfg (read_input cfg bus).2)).1 w.matrix).1
          w.mouseReport).1
      else w.mouseReport := by
  rw [trackball_task_triggered cfg bus kb w h]
  exact (pointer_step_world cfg _ _).2.2

theorem default_chain_record (record : trackball_record_t) : (default_chain record).1 = record :=
  rfl

theorem and_lnot_bits_testBit (b m i : Nat) (hb : b < 256) :
    (b &&& lnot_bits 8 m).testBit i = (b.testBit i && !m.testBit i) := by
  by_cases hi : i < 8
  · unfold lnot_bits
    rw [Nat.testBit_and, Nat.testBit_xor, Nat.testBit_two_pow_sub_one, Nat.testBit_mod_two_pow]
    simp [hi]
  · have hlt : b < 2 ^ i :=
      lt_of_lt_of_le hb (by
        have : (2 : Nat) ^ 8 ≤ 2 ^ i := Nat.pow_le_pow_right (by decide) (Nat.le_of_not_lt hi)
        simpa using this)
    simp [Nat.testBit_lt_two_pow hlt]

/-! ## Claims about routing -/

/-- C6: with a matrix binding inside the matrix, POINTING_DEVICE_ENABLE and
the default handlers, for every prior matrix and report, a poll that produces
an event with the change bit set leaves the bound matrix bit at 1 and the
report's buttons (so its TRACKBALL_MOUSE_BTN bit) as they were when the state
bit is 1, and leaves the bound matrix bit at 0 when the state bit is 0. -/
theorem C6_matrix_binding_takes_button (cfg : Config) (bus : Transport) (w : World)
    (row col : Nat) (hm : cfg.TRACKBALL_MATRIX = some (row, col))
    (he : cfg.POINTING_DEVICE_ENABLE = true)
    (hr : row < w.matrix.length) (hc : col < cfg.MATRIX_ROW_BITS)
    (h : triggered cfg bus) (hchange : (read_input cfg bus).2.button.testBit 0 = true) :
    ((read_input cfg bus).2.button.testBit 7 = true →
      ((trackball_task cfg bus default_chain w).1.matrix.getD row 0).testBit col = true ∧
      (trackball_task cfg bus default_chain w).1.mouseReport.buttons = w.mouseReport.buttons ∧
      (trackball_task cfg bus default_chain w).1.mouseReport.buttons &&& cfg.TRACKBALL_MOUSE_BTN
        = w.mouseReport.buttons &&& cfg.TRACKBALL_MOUSE_BTN) ∧
    ((read_input cfg bus).2.button.testBit 7 = false →
      ((trackball_task cfg bus default_chain w).1.matrix.getD row 0).testBit col = false) := by
  have hbit : ((trackball_task cfg bus default_chain w).1.matrix.getD row 0).testBit col
      = (read_input cfg bus).2.button.testBit 7 := by
    rw [task_matrix_triggered cfg bus _ w h, default_chain_record,
      matrix_step_bound_bit cfg _ w.matrix row col hm
        ((decode_record_button cfg _).mpr hchange) hr hc,
      decode_record_pressed]
  have hbtn : (trackball_task cfg bus default_chain w).1.mouseReport.buttons
      = w.mouseReport.buttons := by
    rw [task_report_triggered cfg bus _ w h, if_pos he,
      report_merge_buttons_kept cfg _ _ (matrix_step_button_clear cfg _ _ row col hm)]
  refine ⟨fun h7 => ⟨hbit.trans h7, hbtn, by rw [hbtn]⟩, fun h7 => hbit.trans h7⟩

/-- C6 at a press edge (button byte 0x81) with the binding at row 1, column 2
and a prior row 0xF0. -/
theorem C6_matrix_binding_takes_button_witness :
    (triggered matrix_pointer_config (bus_of 0 1 0 [0, 0, 0, 0, 0x81] 0) ∧
     (read_input matrix_pointer_config
        (bus_of 0 1 0 [0, 0, 0, 0, 0x81] 0)).2.button.testBit 0 = true ∧
     (read_input matrix_pointer_config
        (bus_of 0 1 0 [0, 0, 0, 0, 0x81] 0)).2.button.testBit 7 = true ∧
     1 < example_world.matrix.length ∧ 2 < matrix_pointer_config.MATRIX_ROW_BITS) ∧
    (((read_input matrix_pointer_config
        (bus_of 0 1 0 [0, 0, 0, 0, 0x81] 0)).2.button.testBit 7 = true →
      ((trackball_task matrix_pointer_config
        (bus_of 0 1 0 [0, 0, 0, 0, 0x81] 0) default_chain example_world).1.matrix.getD 1 0).testBit 2
        = true ∧
      (trackball_task matrix_pointer_config
        (bus_of 0 1 0 [0, 0, 0, 0, 0x81] 0) default_chain example_world).1.mouseReport.buttons
        = example_world.mouseReport.buttons ∧
      (trackball_task matrix_pointer_config
        (bus_of 0 1 0 [0, 0, 0, 0, 0x81] 0) default_chain example_world).1.mouseReport.buttons
          &&& matrix_pointer_config.TRACKBALL_MOUSE_BTN
        = example_world.mouseReport.buttons &&& matrix_pointer_config.TRACKBALL_MOUSE_BTN) ∧
    ((read_input matrix_pointer_config
        (bus_of 0 1 0 [0, 0, 0, 0, 0x81] 0)).2.button.testBit 7 = false →
      ((trackball_task matrix_pointer_config
        (bus_of 0 1 0 [0, 0, 0, 0, 0x81] 0) default_chain example_world).1.matrix.getD 1 0).testBit 2
        = false)) :=
  ⟨by decide,
    C6_matrix_binding_takes_button matrix_pointer_config
      (bus_of 0 1 0 [0, 0, 0, 0, 0x81] 0) example_world 1 2 rfl rfl (by decide) (by decide)
      (by decide) (by decide)⟩

/-- C7: when a matrix binding is configured, for every input block and
transport behaviour, every prior state and every linked handler chain
(whatever it does to the record, its type bits included), `trackball_task`
leaves the buttons of the pointer report equal to their prior value. -/
theorem C7_matrix_binding_excludes_mouse_button (cfg : Config) (bus : Transport)
    (kb : kb_handler_t) (w : World) (row col : Nat)
    (hm : cfg.TRACKBALL_MATRIX = some (row, col)) :
    (trackball_task cfg bus kb w).1.mouseReport.buttons = w.mouseReport.buttons := by
  by_cases h : triggered cfg bus
  · rw [task_report_triggered cfg bus kb w h]
    by_cases he : cfg.POINTING_DEVICE_ENABLE = true
    · rw [if_pos he,
        report_merge_buttons_kept cfg _ _ (matrix_step_button_clear cfg _ _ row col hm)]
    · rw [if_neg he]
  · rw [trackball_task_not_triggered cfg bus kb w h]

/-- C7 at a press edge under a chain that sets both type bits and `pressed`
on whatever record it is handed. -/
theorem C7_matrix_binding_excludes_mouse_button_witness :
    (trackball_task { TRACKBALL_MATRIX := some (1, 2), POINTING_DEVICE_ENABLE := true }
        (bus_of 0 1 0 [0, 5, 0, 0, 0x81] 0)
        (fun r => ({ r with type := TB_BOTH, pressed := true }, []))
        example_world).1.mouseReport.buttons
      = example_world.mouseReport.buttons :=
  C7_matrix_binding_excludes_mouse_button
    { TRACKBALL_MATRIX := some (1, 2), POINTING_DEVICE_ENABLE := true }
    (bus_of 0 1 0 [0, 5, 0, 0, 0x81] 0)
    (fun r => ({ r with type := TB_BOTH, pressed := true }, [])) example_world 1 2 rfl

/-- C8: with POINTING_DEVICE_ENABLE, no matrix binding and the default
handlers, for every prior report (buttons a byte) and matrix, a poll that
produces an event with the change bit set writes back exactly one report,
which becomes the held report; its buttons are (prior OR TRACKBALL_MOUSE_BTN)
when the state bit is 1 and (prior AND NOT TRACKBALL_MOUSE_BTN) when it is 0;
every button bit outside TRACKBALL_MOUSE_BTN keeps its prior value and the
matrix is unchanged.  The default TRACKBALL_MOUSE_BTN is MOUSE_BTN1. -/
theorem C8_pointer_only_mouse_button (cfg : Config) (bus : Transport) (w : World)
    (he : cfg.POINTING_DEVICE_ENABLE = true) (hm : cfg.TRACKBALL_MATRIX = none)
    (hw : w.mouseReport.buttons < 256) (hbtn : cfg.TRACKBALL_MOUSE_BTN < 256)
    (h : triggered cfg bus) (hchange : (read_input cfg bus).2.button.testBit 0 = true) :
    ∃ rep, set_report_calls (trackball_task cfg bus default_chain w).2 = [rep] ∧
      (trackball_task cfg bus default_chain w).1.mouseReport = rep ∧
      ((read_input cfg bus).2.button.testBit 7 = true →
        rep.buttons = w.mouseReport.buttons ||| cfg.TRACKBALL_MOUSE_BTN) ∧
      ((read_input cfg bus).2.button.testBit 7 = false →
        rep.buttons = w.mouseReport.buttons &&& lnot_bits 8 cfg.TRACKBALL_MOUSE_BTN ∧
        ∀ i, rep.buttons.testBit i =
          (w.mouseReport.buttons.testBit i && !cfg.TRACKBALL_MOUSE_BTN.testBit i)) ∧
      (∀ i, cfg.TRACKBALL_MOUSE_BTN.testBit i = false →
        rep.buttons.testBit i = w.mouseReport.buttons.testBit i) ∧
      (trackball_task cfg bus default_chain w).1.matrix = w.matrix ∧
      default_config.TRACKBALL_MOUSE_BTN = MOUSE_BTN1 := by
  have hB : (decode_record cfg (read_input cfg bus).2).type &&& TB_BUTTON ≠ 0 :=
    (decode_record_button cfg _).mpr hchange
  have hcalls : set_report_calls (trackball_task cfg bus default_chain w).2 =
      [(report_merge cfg (decode_record cfg (read_input cfg bus).2) w.mouseReport).1] := by
    rw [set_report_calls_triggered cfg bus _ w h, default_chain_record,
      matrix_step_none cfg _ _ hm, pointer_step_calls cfg _ _ he, if_pos (Or.inl hB)]
  have hrep : (trackball_task cfg bus default_chain w).1.mouseReport =
      (report_merge cfg (decode_record cfg (read_input cfg bus).2) w.mouseReport).1 := by
    rw [task_report_triggered cfg bus _ w h, if_pos he, default_chain_record,
      matrix_step_none cfg _ _ hm]
  have hmat : (trackball_task cfg bus default_chain w).1.matrix = w.matrix := by
    rw [task_matrix_triggered cfg bus _ w h, default_chain_record, matrix_step_none cfg _ _ hm]
  have hbuttons := report_merge_buttons cfg _ w.mouseReport hB
  rw [decode_record_pressed] at hbuttons
  have hor : (w.mouseReport.buttons ||| cfg.TRACKBALL_MOUSE_BTN) % 256
      = w.mouseReport.buttons ||| cfg.TRACKBALL_MOUSE_BTN :=
    Nat.mod_eq_of_lt (Nat.or_lt_two_pow hw hbtn : _ ||| _ < 2 ^ 8)
  refine ⟨_, hcalls, hrep, ?_, ?_, ?_, hmat, rfl⟩
  · intro h7
    rw [hbuttons, h7, if_pos rfl, hor]
  · intro h7
    rw [hbuttons, h7]
    refine ⟨by simp, fun i => ?_⟩
    simp only [Bool.false_eq_true, if_false]
    exact and_lnot_bits_testBit _ _ i hw
  · intro i hi
    rw [hbuttons]
    by_cases h7 : (read_input cfg bus).2.button.testBit 7 = true
    · rw [h7, if_pos rfl, hor, Nat.testBit_or, hi, Bool.or_false]
    · rw [if_neg h7, and_lnot_bits_testBit _ _ i hw, hi]
      simp

/-- C8 at a press edge with buttons 4 held before: the report written back
has buttons 5. -/
theorem C8_pointer_only_mouse_button_witness :
    (triggered pointer_config (bus_of 0 1 0 [0, 0, 0, 0, 0x81] 0) ∧
     (read_input pointer_config (bus_of 0 1 0 [0, 0, 0, 0, 0x81] 0)).2.button.testBit 0 = true ∧
     (read_input pointer_config (bus_of 0 1 0 [0, 0, 0, 0, 0x81] 0)).2.button.testBit 7 = true ∧
     example_world.mouseReport.buttons ||| pointer_config.TRACKBALL_MOUSE_BTN = 5) ∧
    ∃ rep, set_report_calls (trackball_task pointer_config (bus_of 0 1 0 [0, 0, 0, 0, 0x81] 0)
        default_chain example_world).2 = [rep] ∧
      (trackball_task pointer_config (bus_of 0 1 0 [0, 0, 0, 0, 0x81] 0)
        default_chain example_world).1.mouseReport = rep ∧
      ((read_input pointer_config (bus_of 0 1 0 [0, 0, 0, 0, 0x81] 0)).2.button.testBit 7 = true →
        rep.buttons = example_world.mouseReport.buttons ||| pointer_config.TRACKBALL_MOUSE_BTN) ∧
      ((read_input pointer_config (bus_of 0 1 0 [0, 0, 0, 0, 0x81] 0)).2.button.testBit 7 = false →
        rep.buttons = example_world.mouseReport.buttons
          &&& lnot_bits 8 pointer_config.TRACKBALL_MOUSE_BTN ∧
        ∀ i, rep.buttons.testBit i =
          (example_world.mouseReport.buttons.testBit i
            && !pointer_config.TRACKBALL_MOUSE_BTN.testBit i)) ∧
      (∀ i, pointer_config.TRACKBALL_MOUSE_BTN.testBit i = false →
        rep.buttons.testBit i = example_world.mouseReport.buttons.testBit i) ∧
      (trackball_task pointer_config (bus_of 0 1 0 [0, 0, 0, 0, 0x81] 0)
        default_chain example_world).1.matrix = example_world.matrix ∧
      default_config.TRACKBALL_MOUSE_BTN = MOUSE_BTN1 :=
  ⟨by decide,
    C8_pointer_only_mouse_button pointer_config (bus_of 0 1 0 [0, 0, 0, 0, 0x81] 0)
      example_world rfl rfl (by decide) (by decide) (by decide) (by decide)⟩

/-- C9: for every configuration (POINTING_DEVICE_ENABLE in particular),
every poll that produces an event (whether or not its decoded x or y is zero)
and every linked handler chain that leaves the record with TB_MOVED cleared,
the x and y of the pointer report after `trackball_task` equal their prior
values. -/
theorem C9_cleared_moved_suppresses_motion (cfg : Config) (bus : Transport)
    (kb : kb_handler_t) (w : World) (h : triggered cfg bus)
    (hclear : (kb (decode_record cfg (read_input cfg bus).2)).1.type &&& TB_MOVED = 0) :
    (trackball_task cfg bus kb w).1.mouseReport.x = w.mouseReport.x ∧
    (trackball_task cfg bus kb w).1.mouseReport.y = w.mouseReport.y := by
  rw [task_report_triggered cfg bus kb w h]
  by_cases he : cfg.POINTING_DEVICE_ENABLE = true
  · rw [if_pos he]
    apply report_merge_motion_kept
    rw [(matrix_step_record cfg _ _).1]
    exact hclear
  · rw [if_neg he]
    exact ⟨rfl, rfl⟩

/-- C9 at a poll with a press edge and decoded motion (9, 0), pointer output
enabled, under a chain that clears TB_MOVED: the report is written back for
the button, with its x and y as before. -/
theorem C9_cleared_moved_suppresses_motion_witness :
    (triggered pointer_config (bus_of 0 1 0 [0, 9, 0, 0, 0x81] 0) ∧
     pointer_config.POINTING_DEVICE_ENABLE = true ∧
     (decode_record pointer_config
        (read_input pointer_config (bus_of 0 1 0 [0, 9, 0, 0, 0x81] 0)).2).x = 9 ∧
     (intercept_movement (decode_record pointer_config
        (read_input pointer_config (bus_of 0 1 0 [0, 9, 0, 0, 0x81] 0)).2)).1.type
        &&& TB_MOVED = 0 ∧
     (set_report_calls (trackball_task pointer_config (bus_of 0 1 0 [0, 9, 0, 0, 0x81] 0)
        intercept_movement example_world).2).length = 1) ∧
    ((trackball_task pointer_config (bus_of 0 1 0 [0, 9, 0, 0, 0x81] 0)
        intercept_movement example_world).1.mouseReport.x = example_world.mouseReport.x ∧
     (trackball_task pointer_config (bus_of 0 1 0 [0, 9, 0, 0, 0x81] 0)
        intercept_movement example_world).1.mouseReport.y = example_world.mouseReport.y) :=
  ⟨by decide,
    C9_cleared_moved_suppresses_motion pointer_config (bus_of 0 1 0 [0, 9, 0, 0, 0x81] 0)
      intercept_movement example_world (by decide) (by decide)⟩

/-- C10: with POINTING_DEVICE_ENABLE, for every poll that produces an event
and every linked handler chain, `pointing_device_set_report` is called
exactly once when TB_BUTTON or TB_MOVED is set in the record's type as the
pointer-report step is reached (after the chain and after the matrix step),
and is not called at all otherwise. -/
theorem C10_report_written_iff_merge (cfg : Config) (bus : Transport) (kb : kb_handler_t)
    (w : World) (he : cfg.POINTING_DEVICE_ENABLE = true) (h : triggered cfg bus) :
    (((matrix_step cfg (kb (decode_record cfg (read_input cfg bus).2)).1 w.matrix).1.type
          &&& TB_BUTTON ≠ 0 ∨
       (matrix_step cfg (kb (decode_record cfg (read_input cfg bus).2)).1 w.matrix).1.type
          &&& TB_MOVED ≠ 0) →
      (set_report_calls (trackball_task cfg bus kb w).2).length = 1) ∧
    (¬ ((matrix_step cfg (kb (decode_record cfg (read_input cfg bus).2)).1 w.matrix).1.type
          &&& TB_BUTTON ≠ 0 ∨
        (matrix_step cfg (kb (decode_record cfg (read_input cfg bus).2)).1 w.matrix).1.type
          &&& TB_MOVED ≠ 0) →
      set_report_calls (trackball_task cfg bus kb w).2 = []) := by
  rw [set_report_calls_triggered cfg bus kb w h, pointer_step_calls cfg _ _ he]
  constructor
  · intro hf
    rw [if_pos hf]
    rfl
  · intro hf
    rw [if_neg hf]

/-- C10 at a press edge with motion under a matrix binding and the default
chain: the matrix step consumes TB_BUTTON, TB_MOVED remains, and the report
is written back once. -/
theorem C10_report_written_iff_merge_witness :
    (triggered matrix_pointer_config (bus_of 0 1 0 [0, 9, 0, 0, 0x81] 0) ∧
     (matrix_step matrix_pointer_config
        (default_chain (decode_record matrix_pointer_config
          (read_input matrix_pointer_config (bus_of 0 1 0 [0, 9, 0, 0, 0x81] 0)).2)).1
        example_world.matrix).1.type = TB_MOVED) ∧
    ((((matrix_step matrix_pointer_config
        (default_chain (decode_record matrix_pointer_config
          (read_input matrix_pointer_config (bus_of 0 1 0 [0, 9, 0, 0, 0x81] 0)).2)).1
        example_world.matrix).1.type &&& TB_BUTTON ≠ 0 ∨
       (matrix_step matrix_pointer_config
        (default_chain (decode_record matrix_pointer_config
          (read_input matrix_pointer_config (bus_of 0 1 0 [0, 9, 0, 0, 0x81] 0)).2)).1
        example_world.matrix).1.type &&& TB_MOVED ≠ 0) →
      (set_report_calls (trackball_task matrix_pointer_config
        (bus_of 0 1 0 [0, 9, 0, 0, 0x81] 0) default_chain example_world).2).length = 1) ∧
    (¬ ((matrix_step matrix_pointer_config
        (default_chain (decode_record matrix_pointer_config
          (read_input matrix_pointer_config (bus_of 0 1 0 [0, 9, 0, 0, 0x81] 0)).2)).1
        example_world.matrix).1.type &&& TB_BUTTON ≠ 0 ∨
        (matrix_step matrix_pointer_config
        (default_chain (decode_record matrix_pointer_config
          (read_input matrix_pointer_config (bus_of 0 1 0 [0, 9, 0, 0, 0x81] 0)).2)).1
        example_world.matrix).1.type &&& TB_MOVED ≠ 0) →
      set_report_calls (trackball_task matrix_pointer_config
        (bus_of 0 1 0 [0, 9, 0, 0, 0x81] 0) default_chain example_world).2 = [])) :=
  ⟨by decide,
    C10_report_written_iff_merge matrix_pointer_config (bus_of 0 1 0 [0, 9, 0, 0, 0x81] 0)
      default_chain example_world rfl (by decide)⟩

/-! ## The handler chain -/

theorem handler_calls_append (xs ys : List Call) :
    handler_calls (xs ++ ys) = handler_calls xs ++ handler_calls ys := by
  induction xs with
  | nil => rfl
  | cons c cs ih => cases c <;> simp [handler_calls, ih]

theorem handler_calls_map_user (rs : List trackball_record_t) :
    handler_calls (rs.map Call.process_trackball_user) = rs.map Call.process_trackball_user := by
  induction rs with
  | nil => rfl
  | cons r rs ih => simp [handler_calls, ih]

theorem mirror_step_no_handler (cfg : Config) (bus : Transport) (w : World) :
    handler_calls (mirror_step cfg bus w) = [] := by
  unfold mirror_step
  cases cfg.TRACKBALL_RGBLIGHT <;> simp [trackball_setrgb, handler_calls]

theorem pointer_step_no_handler (cfg : Config) (record : trackball_record_t) (w : World) :
    handler_calls (pointer_step cfg record w).2 = [] := by
  unfold pointer_step
  by_cases he : cfg.POINTING_DEVICE_ENABLE = true
  · by_cases hs : (report_merge cfg record (pointing_device_get_report w)).2 = true
    · simp [he, hs, handler_calls]
    · simp [he, hs, handler_calls]
  · simp [he, handler_calls]

/-- The handler invocations of a poll that produces an event: the one call
of `process_trackball_kb` by `trackball_task`, then the calls of
`process_trackball_user` made inside it. -/
theorem handler_calls_triggered (cfg : Config) (bus : Transport) (kb : kb_handler_t)
    (w : World) (h : triggered cfg bus) :
    handler_calls (trackball_task cfg bus kb w).2 =
      Call.process_trackball_kb (decode_record cfg (read_input cfg bus).2) ::
        (kb (decode_record cfg (read_input cfg bus).2)).2.map Call.process_trackball_user := by
  rw [trackball_task_triggered cfg bus kb w h]
  simp [handler_calls_append, mirror_step_no_handler, handler_calls_map_user,
    pointer_step_no_handler, handler_calls, interrupt_read_call, input_read_call]

theorem user_calls_triggered (cfg : Config) (bus : Transport) (kb : kb_handler_t)
    (w : World) (h : triggered cfg bus) :
    user_calls (trackball_task cfg bus kb w).2 =
      (kb (decode_record cfg (read_input cfg bus).2)).2 := by
  rw [trackball_task_triggered cfg bus kb w h]
  simp [user_calls_append, (mirror_step_quiet cfg bus w).2.1, user_calls_map_user,
    (pointer_step_kb_user_quiet cfg _ _).2, user_calls, interrupt_read_call, input_read_call]

/-- C11, as stated, fails: with `process_trackball_kb` overridden by a
handler that does not forward, a poll that produces an event invokes
`process_trackball_kb` once and `process_trackball_user` not at all. -/
theorem C11_override_skips_user :
    kb_calls (trackball_task pointer_config (bus_of 0 1 0 [0, 3, 0, 0, 0x81] 0)
        kb_without_forward example_world).2
      = [{ x := 3, y := 0, pressed := true, type := TB_BOTH }] ∧
    user_calls (trackball_task pointer_config (bus_of 0 1 0 [0, 3, 0, 0, 0x81] 0)
        kb_without_forward example_world).2 = [] := by
  decide

/-- C11, amended: on every poll that produces an event `trackball_task`
invokes `process_trackball_kb` exactly once, on the decoded record, and
`process_trackball_user` is invoked only from inside it, as often as the
linked `process_trackball_kb` does so.  With the default
`process_trackball_kb`, for every `process_trackball_user`, the handler
invocations are that one call followed by exactly one call of
`process_trackball_user` on the same decoded record, and residual processing
runs on the record `process_trackball_user` leaves. -/
theorem C11_user_runs_inside_default_kb (cfg : Config) (bus : Transport)
    (user : user_handler_t) (kb : kb_handler_t) (w : World) (h : triggered cfg bus) :
    (kb_calls (trackball_task cfg bus kb w).2 = [decode_record cfg (read_input cfg bus).2] ∧
     user_calls (trackball_task cfg bus kb w).2
       = (kb (decode_record cfg (read_input cfg bus).2)).2) ∧
    (handler_calls (trackball_task cfg bus (process_trackball_kb user) w).2 =
       [Call.process_trackball_kb (decode_record cfg (read_input cfg bus).2),
        Call.process_trackball_user (decode_record cfg (read_input cfg bus).2)] ∧
     (trackball_task cfg bus (process_trackball_kb user) w).1 =
       (pointer_step cfg
          (matrix_step cfg (user (decode_record cfg (read_input cfg bus).2)) w.matrix).1
          { w with matrix :=
              (matrix_step cfg (user (decode_record cfg (read_input cfg bus).2)) w.matrix).2 }).1)
    := by
  refine ⟨⟨kb_calls_triggered cfg bus kb w h, user_calls_triggered cfg bus kb w h⟩, ?_, ?_⟩
  · rw [handler_calls_triggered cfg bus _ w h]
    rfl
  · rw [trackball_task_triggered cfg bus _ w h]
    rfl

/-- C11, amended, at a poll with motion (3, 0): the default
`process_trackball_kb` over the accelerating `process_trackball_user`, next
to an override that does not forward. -/
theorem C11_user_runs_inside_default_kb_witness :
    triggered pointer_config (bus_of 0 1 0 [0, 3, 0, 0, 0] 0) ∧
    (trackball_task pointer_config (bus_of 0 1 0 [0, 3, 0, 0, 0] 0)
      (process_trackball_kb custom_acceleration) example_world).1.mouseReport
      = { buttons := 4, x := -96, y := -3 } ∧
    ((kb_calls (trackball_task pointer_config (bus_of 0 1 0 [0, 3, 0, 0, 0] 0)
        kb_without_forward example_world).2
        = [decode_record pointer_config
            (read_input pointer_config (bus_of 0 1 0 [0, 3, 0, 0, 0] 0)).2] ∧
      user_calls (trackball_task pointer_config (bus_of 0 1 0 [0, 3, 0, 0, 0] 0)
        kb_without_forward example_world).2
        = (kb_without_forward (decode_record pointer_config
            (read_input pointer_config (bus_of 0 1 0 [0, 3, 0, 0, 0] 0)).2)).2) ∧
     (handler_calls (trackball_task pointer_config (bus_of 0 1 0 [0, 3, 0, 0, 0] 0)
        (process_trackball_kb custom_acceleration) example_world).2 =
        [Call.process_trackball_kb (decode_record pointer_config
            (read_input pointer_config (bus_of 0 1 0 [0, 3, 0, 0, 0] 0)).2),
         Call.process_trackball_user (decode_record pointer_config
            (read_input pointer_config (bus_of 0 1 0 [0, 3, 0, 0, 0] 0)).2)] ∧
      (trackball_task pointer_config (bus_of 0 1 0 [0, 3, 0, 0, 0] 0)
        (process_trackball_kb custom_acceleration) example_world).1 =
        (pointer_step pointer_config
          (matrix_step pointer_config (custom_acceleration (decode_record pointer_config
            (read_input pointer_config (bus_of 0 1 0 [0, 3, 0, 0, 0] 0)).2))
            example_world.matrix).1
          { example_world with matrix :=
              (matrix_step pointer_config (custom_acceleration (decode_record pointer_config
                (read_input pointer_config (bus_of 0 1 0 [0, 3, 0, 0, 0] 0)).2))
                example_world.matrix).2 }).1)) :=
  ⟨by decide, by decide,
    C11_user_runs_inside_default_kb pointer_config (bus_of 0 1 0 [0, 3, 0, 0, 0] 0)
      custom_acceleration kb_without_forward example_world (by decide)⟩

/-! ## Narrowing -/

theorem buf_byte_lt (buf : List Nat) (i : Nat) : buf_byte buf i < 256 := by
  unfold buf_byte
  exact Nat.mod_lt _ (by decide)

/-- The five fields of an input block read from the transport are bytes. -/
theorem read_input_bytes (cfg : Config) (bus : Transport) :
    (read_input cfg bus).2.left < 256 ∧ (read_input cfg bus).2.right < 256 ∧
    (read_input cfg bus).2.up < 256 ∧ (read_input cfg bus).2.down < 256 ∧
    (read_input cfg bus).2.button < 256 := by
  unfold read_input
  exact ⟨buf_byte_lt _ _, buf_byte_lt _ _, buf_byte_lt _ _, buf_byte_lt _ _, buf_byte_lt _ _⟩

theorem wrapped_from_to_int8 (d : Int) (h1 : -255 ≤ d) (h2 : d ≤ 255) :
    wrapped_from d (to_int8 d) := by
  unfold wrapped_from clamp_int8 to_int8
  refine ⟨rfl, ?_, ?_, ?_, ?_⟩
  · split_ifs <;> constructor <;> intro h <;> omega
  · intro h; constructor <;> intro h0 <;> omega
  · intro h; omega
  · intro h; omega

/-- The table's differences of a block of bytes lie in -255..255. -/
theorem table_of_bounds (selector : Fin 4) (input : input_t)
    (hl : input.left < 256) (hr : input.right < 256) (hu : input.up < 256)
    (hd : input.down < 256) :
    (-255 ≤ (table_of selector input).1 ∧ (table_of selector input).1 ≤ 255) ∧
    (-255 ≤ (table_of selector input).2 ∧ (table_of selector input).2 ≤ 255) := by
  fin_cases selector <;> simp [table_of, orientation_table] <;> omega

/-- C12, as stated, fails: under selector 0 the block with right=200, left=0
is decoded to x = -56, a negative value for a positive difference, not to the
clamped difference 127. -/
theorem C12_large_motion_reverses :
    (kb_calls (trackball_task (with_orientation default_config 0)
        (bus_of 0 1 0 [0, 200, 0, 0, 0] 0) default_chain example_world).2).map
        (fun r => r.x) = [-56] ∧
    clamp_int8 (table_of 0 (read_input (with_orientation default_config 0)
        (bus_of 0 1 0 [0, 200, 0, 0, 0] 0)).2).1 = 127 ∧
    0 < (table_of 0 (read_input (with_orientation default_config 0)
        (bus_of 0 1 0 [0, 200, 0, 0, 0] 0)).2).1 := by
  decide

/-- C12, amended: for every selector and every input block read on a poll
that produces an event, the record's x (and likewise y) is its difference
reduced modulo 256 into -128..127; it equals the clamped difference exactly
when the difference lies in -128..127, where it also has the difference's
sign; a difference above 127 is decoded as a negative value and one below
-128 as a positive value. -/
theorem C12_narrowing_wraps (cfg : Config) (selector : Fin 4) (bus : Transport)
    (kb : kb_handler_t) (w : World) (h : triggered (with_orientation cfg selector) bus) :
    ∃ r, kb_calls (trackball_task (with_orientation cfg selector) bus kb w).2 = [r] ∧
      wrapped_from (table_of selector (read_input (with_orientation cfg selector) bus).2).1 r.x ∧
      wrapped_from (table_of selector (read_input (with_orientation cfg selector) bus).2).2 r.y
    := by
  obtain ⟨hl, hr, hu, hd, _⟩ := read_input_bytes (with_orientation cfg selector) bus
  obtain ⟨hx, hy⟩ := table_of_bounds selector _ hl hr hu hd
  refine ⟨_, kb_calls_triggered _ bus kb w h, ?_, ?_⟩
  · rw [decode_record_x cfg selector _]
    exact wrapped_from_to_int8 _ hx.1 hx.2
  · rw [decode_record_y cfg selector _]
    exact wrapped_from_to_int8 _ hy.1 hy.2

/-- C12, amended, at the block with right=200, left=0 and up=3 under
selector 0: x is -56 and y is -3. -/
theorem C12_narrowing_wraps_witness :
    triggered (with_orientation default_config ((0 : Fin 4) : Nat))
      (bus_of 0 1 0 [0, 200, 3, 0, 0] 0) ∧
    (kb_calls (trackball_task (with_orientation default_config ((0 : Fin 4) : Nat))
        (bus_of 0 1 0 [0, 200, 3, 0, 0] 0) default_chain example_world).2).map
        (fun r => (r.x, r.y)) = [(-56, -3)] ∧
    ∃ r, kb_calls (trackball_task (with_orientation default_config ((0 : Fin 4) : Nat))
        (bus_of 0 1 0 [0, 200, 3, 0, 0] 0) default_chain example_world).2 = [r] ∧
      wrapped_from (table_of 0 (read_input (with_orientation default_config ((0 : Fin 4) : Nat))
        (bus_of 0 1 0 [0, 200, 3, 0, 0] 0)).2).1 r.x ∧
      wrapped_from (table_of 0 (read_input (with_orientation default_config ((0 : Fin 4) : Nat))
        (bus_of 0 1 0 [0, 200, 3, 0, 0] 0)).2).2 r.y :=
  ⟨by decide, by decide,
    C12_narrowing_wraps default_config 0 (bus_of 0 1 0 [0, 200, 3, 0, 0] 0) default_chain
      example_world (by decide)⟩

/-! ## Accumulation into the report -/

theorem report_merge_motion (cfg : Config) (record : trackball_record_t)
    (report : report_mouse_t) (hv : record.type &&& TB_MOVED ≠ 0) :
    (report_merge cfg record report).1.x = to_int8 (report.x + record.x) ∧
    (report_merge cfg record report).1.y = to_int8 (report.y + record.y) := by
  unfold report_merge
  by_cases hb : record.type &&& TB_BUTTON ≠ 0 <;>
    by_cases hp : record.pressed = true <;> simp [hb, hv, hp]

/-- A record without TB_BUTTON passes the matrix step untouched, and so does
the matrix. -/
theorem matrix_step_no_button (cfg : Config) (record : trackball_record_t)
    (matrix : List Nat) (hb : record.type &&& TB_BUTTON = 0) :
    matrix_step cfg record matrix = (record, matrix) := by
  unfold matrix_step
  cases hm : cfg.TRACKBALL_MATRIX with
  | none => rfl
  | some rc =>
    obtain ⟨row, col⟩ := rc
    simp [hb]

/-- With pointer output and TB_MOVED left set by the chain, a poll that
produces an event writes back one report, the held one afterwards, whose x
and y are the narrowed sums; its buttons are the prior ones when the chain
leaves TB_BUTTON clear. -/
theorem moved_report (cfg : Config) (bus : Transport) (kb : kb_handler_t) (w : World)
    (he : cfg.POINTING_DEVICE_ENABLE = true) (h : triggered cfg bus)
    (hmoved : (kb (decode_record cfg (read_input cfg bus).2)).1.type &&& TB_MOVED ≠ 0) :
    set_report_calls (trackball_task cfg bus kb w).2
      = [(trackball_task cfg bus kb w).1.mouseReport] ∧
    (trackball_task cfg bus kb w).1.mouseReport.x
      = to_int8 (w.mouseReport.x + (kb (decode_record cfg (read_input cfg bus).2)).1.x) ∧
    (trackball_task cfg bus kb w).1.mouseReport.y
      = to_int8 (w.mouseReport.y + (kb (decode_record cfg (read_input cfg bus).2)).1.y) ∧
    ((kb (decode_record cfg (read_input cfg bus).2)).1.type &&& TB_BUTTON = 0 →
      (trackball_task cfg bus kb w).1.mouseReport.buttons = w.mouseReport.buttons) := by
  obtain ⟨hm1, hm2, hm3, _⟩ :=
    matrix_step_record cfg (kb (decode_record cfg (read_input cfg bus).2)).1 w.matrix
  have hv : (matrix_step cfg (kb (decode_record cfg (read_input cfg bus).2)).1 w.matrix).1.type
      &&& TB_MOVED ≠ 0 := by rw [hm1]; exact hmoved
  obtain ⟨hx, hy⟩ := report_merge_motion cfg _ w.mouseReport hv
  rw [set_report_calls_triggered cfg bus kb w h, task_report_triggered cfg bus kb w h,
    pointer_step_calls cfg _ _ he, if_pos (Or.inr hv), if_pos he, hx, hy, hm2, hm3]
  refine ⟨rfl, rfl, rfl, ?_⟩
  intro hb
  rw [matrix_step_no_button cfg _ _ hb]
  exact report_merge_buttons_kept cfg _ _ hb

theorem wrap_eq_clamp_iff (s : Int) (h1 : -256 ≤ s) (h2 : s ≤ 254) :
    to_int8 s = clamp_int8 s ↔ (-128 ≤ s ∧ s ≤ 127) := by
  unfold clamp_int8 to_int8
  split_ifs <;> constructor <;> intro h <;> omega

/-- C13, as stated, fails: with prior x = 100 and a record x of 100 the
report written back has x = -56, not the clamped sum 127. -/
theorem C13_accumulation_does_not_saturate :
    (decode_record pointer_config
        (read_input pointer_config (bus_of 0 1 0 [0, 100, 0, 0, 0] 0)).2).x = 100 ∧
    example_world.mouseReport.x = 100 ∧
    set_report_calls (trackball_task pointer_config (bus_of 0 1 0 [0, 100, 0, 0, 0] 0)
        default_chain example_world).2 = [{ buttons := 4, x := -56, y := -3 }] ∧
    clamp_int8 (100 + 100) = 127 := by
  decide

/-- C13, amended: with POINTING_DEVICE_ENABLE and TB_MOVED still set after
the chain, for every prior displacement and every record x, y (all `int8_t`
values), the one report written back has x = prior x + record x and
y = prior y + record y narrowed to `int8_t`, that is reduced modulo 256 into
-128..127; this is the clamped sum exactly when the sum lies in -128..127. -/
theorem C13_accumulation_wraps (cfg : Config) (bus : Transport) (kb : kb_handler_t) (w : World)
    (he : cfg.POINTING_DEVICE_ENABLE = true) (h : triggered cfg bus)
    (hmoved : (kb (decode_record cfg (read_input cfg bus).2)).1.type &&& TB_MOVED ≠ 0)
    (hpx : -128 ≤ w.mouseReport.x ∧ w.mouseReport.x ≤ 127)
    (hpy : -128 ≤ w.mouseReport.y ∧ w.mouseReport.y ≤ 127)
    (hrx : -128 ≤ (kb (decode_record cfg (read_input cfg bus).2)).1.x ∧
      (kb (decode_record cfg (read_input cfg bus).2)).1.x ≤ 127)
    (hry : -128 ≤ (kb (decode_record cfg (read_input cfg bus).2)).1.y ∧
      (kb (decode_record cfg (read_input cfg bus).2)).1.y ≤ 127) :
    ∃ rep, set_report_calls (trackball_task cfg bus kb w).2 = [rep] ∧
      (trackball_task cfg bus kb w).1.mouseReport = rep ∧
      rep.x = to_int8 (w.mouseReport.x + (kb (decode_record cfg (read_input cfg bus).2)).1.x) ∧
      rep.y = to_int8 (w.mouseReport.y + (kb (decode_record cfg (read_input cfg bus).2)).1.y) ∧
      (rep.x = clamp_int8
          (w.mouseReport.x + (kb (decode_record cfg (read_input cfg bus).2)).1.x) ↔
        (-128 ≤ w.mouseReport.x + (kb (decode_record cfg (read_input cfg bus).2)).1.x ∧
          w.mouseReport.x + (kb (decode_record cfg (read_input cfg bus).2)).1.x ≤ 127)) ∧
      (rep.y = clamp_int8
          (w.mouseReport.y + (kb (decode_record cfg (read_input cfg bus).2)).1.y) ↔
        (-128 ≤ w.mouseReport.y + (kb (decode_record cfg (read_input cfg bus).2)).1.y ∧
          w.mouseReport.y + (kb (decode_record cfg (read_input cfg bus).2)).1.y ≤ 127)) := by
  obtain ⟨hcalls, hx, hy, _⟩ := moved_report cfg bus kb w he h hmoved
  refine ⟨_, hcalls, rfl, hx, hy, ?_, ?_⟩
  · rw [hx]
    exact wrap_eq_clamp_iff _ (by omega) (by omega)
  · rw [hy]
    exact wrap_eq_clamp_iff _ (by omega) (by omega)

/-- C13, amended, at prior displacement (100, -3) and a decoded motion of
(100, 2): the report written back has displacement (-56, -1). -/
theorem C13_accumulation_wraps_witness :
    (triggered pointer_config (bus_of 0 1 0 [0, 100, 0, 2, 0] 0) ∧
     (default_chain (decode_record pointer_config
        (read_input pointer_config (bus_of 0 1 0 [0, 100, 0, 2, 0] 0)).2)).1
       = { x := 100, y := 2, pressed := false, type := TB_MOVED } ∧
     (trackball_task pointer_config (bus_of 0 1 0 [0, 100, 0, 2, 0] 0) default_chain
        example_world).1.mouseReport = { buttons := 4, x := -56, y := -1 }) ∧
    ∃ rep, set_report_calls (trackball_task pointer_config (bus_of 0 1 0 [0, 100, 0, 2, 0] 0)
        default_chain example_world).2 = [rep] ∧
      (trackball_task pointer_config (bus_of 0 1 0 [0, 100, 0, 2, 0] 0) default_chain
        example_world).1.mouseReport = rep ∧
      rep.x = to_int8 (example_world.mouseReport.x + (default_chain (decode_record pointer_config
        (read_input pointer_config (bus_of 0 1 0 [0, 100, 0, 2, 0] 0)).2)).1.x) ∧
      rep.y = to_int8 (example_world.mouseReport.y + (default_chain (decode_record pointer_config
        (read_input pointer_config (bus_of 0 1 0 [0, 100, 0, 2, 0] 0)).2)).1.y) ∧
      (rep.x = clamp_int8
          (example_world.mouseReport.x + (default_chain (decode_record pointer_config
            (read_input pointer_config (bus_of 0 1 0 [0, 100, 0, 2, 0] 0)).2)).1.x) ↔
        (-128 ≤ example_world.mouseReport.x + (default_chain (decode_record pointer_config
            (read_input pointer_config (bus_of 0 1 0 [0, 100, 0, 2, 0] 0)).2)).1.x ∧
          example_world.mouseReport.x + (default_chain (decode_record pointer_config
            (read_input pointer_config (bus_of 0 1 0 [0, 100, 0, 2, 0] 0)).2)).1.x ≤ 127)) ∧
      (rep.y = clamp_int8
          (example_world.mouseReport.y + (default_chain (decode_record pointer_config
            (read_input pointer_config (bus_of 0 1 0 [0, 100, 0, 2, 0] 0)).2)).1.y) ↔
        (-128 ≤ example_world.mouseReport.y + (default_chain (decode_record pointer_config
            (read_input pointer_config (bus_of 0 1 0 [0, 100, 0, 2, 0] 0)).2)).1.y ∧
          example_world.mouseReport.y + (default_chain (decode_record pointer_config
            (read_input pointer_config (bus_of 0 1 0 [0, 100, 0, 2, 0] 0)).2)).1.y ≤ 127)) :=
  ⟨by decide,
    C13_accumulation_wraps pointer_config (bus_of 0 1 0 [0, 100, 0, 2, 0] 0) default_chain
      example_world rfl (by decide) (by decide) (by decide) (by decide) (by decide) (by decide)⟩

/-! ## The LED -/

/-- C15: for every r, g, b in 0..255, `trackball_setrgb` issues exactly one
transport write, to register 0x00 at the configured address shifted left by
one, of the buffer [r, g, b, 0], and returns the status of that write,
whatever status the transport answers. -/
theorem C15_setrgb_single_write (cfg : Config) (bus : Transport) (r g b : Nat)
    (hr : r < 256) (hg : g < 256) (hb : b < 256) :
    (trackball_setrgb cfg bus r g b).2 =
      [Call.i2c_writeReg (cfg.TRACKBALL_ADDRESS <<< 1) 0x00 [r, g, b, 0] cfg.TRACKBALL_TIMEOUT] ∧
    (trackball_setrgb cfg bus r g b).1 =
      bus.writeReg (cfg.TRACKBALL_ADDRESS <<< 1) 0x00 [r, g, b, 0] cfg.TRACKBALL_TIMEOUT ∧
    ∀ (status : i2c_status_t) (s1 s2 : i2c_status_t) (i : Nat) (input : List Nat),
      (trackball_setrgb cfg (bus_of s1 i s2 input status) r g b).1 = status := by
  have e : ∀ t : Transport, trackball_setrgb cfg t r g b =
      (t.writeReg (cfg.TRACKBALL_ADDRESS <<< 1) 0x00 [r, g, b, 0] cfg.TRACKBALL_TIMEOUT,
       [Call.i2c_writeReg (cfg.TRACKBALL_ADDRESS <<< 1) 0x00 [r, g, b, 0]
         cfg.TRACKBALL_TIMEOUT]) := by
    intro t
    unfold trackball_setrgb
    simp only [Nat.mod_eq_of_lt hr, Nat.mod_eq_of_lt hg, Nat.mod_eq_of_lt hb, LED_REG]
  refine ⟨by rw [e], by rw [e], ?_⟩
  intro status s1 s2 i input
  rw [e]
  rfl

/-- C15 at the colour (10, 20, 255) with a transport that answers the write
with status -2: the write goes to address 0x14, register 0. -/
theorem C15_setrgb_single_write_witness :
    ((trackball_setrgb default_config (bus_of 0 0 0 [] (-2)) 10 20 255).2
       = [Call.i2c_writeReg 0x14 0 [10, 20, 255, 0] 100] ∧
     (trackball_setrgb default_config (bus_of 0 0 0 [] (-2)) 10 20 255).1 = -2) ∧
    ((trackball_setrgb default_config (bus_of 0 0 0 [] (-2)) 10 20 255).2 =
      [Call.i2c_writeReg (default_config.TRACKBALL_ADDRESS <<< 1) 0x00 [10, 20, 255, 0]
        default_config.TRACKBALL_TIMEOUT] ∧
    (trackball_setrgb default_config (bus_of 0 0 0 [] (-2)) 10 20 255).1 =
      (bus_of 0 0 0 [] (-2)).writeReg (default_config.TRACKBALL_ADDRESS <<< 1) 0x00
        [10, 20, 255, 0] default_config.TRACKBALL_TIMEOUT ∧
    ∀ (status : i2c_status_t) (s1 s2 : i2c_status_t) (i : Nat) (input : List Nat),
      (trackball_setrgb default_config (bus_of s1 i s2 input status) 10 20 255).1 = status) :=
  ⟨by decide,
    C15_setrgb_single_write default_config (bus_of 0 0 0 [] (-2)) 10 20 255
      (by decide) (by decide) (by decide)⟩

/-- C14: for every h, s, v in 0..255, every conversion routine and every
transport behaviour, `trackball_sethsv` issues the same single register write
and returns the same status as `trackball_setrgb` on the three channels of
the colour the routine gives for (h, s, v). -/
theorem C14_sethsv_is_setrgb_of_conversion (cfg : Config) (bus : Transport)
    (hsv_to_rgb : Nat → Nat → Nat → LED_TYPE) (h s v : Nat)
    (hh : h < 256) (hs : s < 256) (hv : v < 256) :
    trackball_sethsv cfg bus hsv_to_rgb h s v =
      trackball_setrgb cfg bus (hsv_to_rgb h s v).r (hsv_to_rgb h s v).g (hsv_to_rgb h s v).b ∧
    (trackball_sethsv cfg bus hsv_to_rgb h s v).2 =
      [Call.i2c_writeReg (cfg.TRACKBALL_ADDRESS <<< 1) LED_REG
        [(hsv_to_rgb h s v).r % 256, (hsv_to_rgb h s v).g % 256, (hsv_to_rgb h s v).b % 256, 0]
        cfg.TRACKBALL_TIMEOUT] ∧
    (trackball_sethsv cfg bus hsv_to_rgb h s v).1 =
      (trackball_setrgb cfg bus (hsv_to_rgb h s v).r (hsv_to_rgb h s v).g
        (hsv_to_rgb h s v).b).1 := by
  have e : trackball_sethsv cfg bus hsv_to_rgb h s v =
      trackball_setrgb cfg bus (hsv_to_rgb h s v).r (hsv_to_rgb h s v).g
        (hsv_to_rgb h s v).b := by
    unfold trackball_sethsv
    simp only [Nat.mod_eq_of_lt hh, Nat.mod_eq_of_lt hs, Nat.mod_eq_of_lt hv]
  refine ⟨e, ?_, by rw [e]⟩
  rw [e]
  rfl

/-- C14 at (h, s, v) = (30, 200, 90) with a transport that answers the write
with status -1. -/
theorem C14_sethsv_is_setrgb_of_conversion_witness :
    (trackball_sethsv default_config (bus_of 0 0 0 [] (-1)) example_hsv_to_rgb 30 200 90
       = (-1, [Call.i2c_writeReg 0x14 0 [90, 120, 34, 0] 100])) ∧
    (trackball_sethsv default_config (bus_of 0 0 0 [] (-1)) example_hsv_to_rgb 30 200 90 =
      trackball_setrgb default_config (bus_of 0 0 0 [] (-1))
        (example_hsv_to_rgb 30 200 90).r (example_hsv_to_rgb 30 200 90).g
        (example_hsv_to_rgb 30 200 90).b ∧
    (trackball_sethsv default_config (bus_of 0 0 0 [] (-1)) example_hsv_to_rgb 30 200 90).2 =
      [Call.i2c_writeReg (default_config.TRACKBALL_ADDRESS <<< 1) LED_REG
        [(example_hsv_to_rgb 30 200 90).r % 256, (example_hsv_to_rgb 30 200 90).g % 256,
          (example_hsv_to_rgb 30 200 90).b % 256, 0]
        default_config.TRACKBALL_TIMEOUT] ∧
    (trackball_sethsv default_config (bus_of 0 0 0 [] (-1)) example_hsv_to_rgb 30 200 90).1 =
      (trackball_setrgb default_config (bus_of 0 0 0 [] (-1))
        (example_hsv_to_rgb 30 200 90).r (example_hsv_to_rgb 30 200 90).g
        (example_hsv_to_rgb 30 200 90).b).1) :=
  ⟨by decide,
    C14_sethsv_is_setrgb_of_conversion default_config (bus_of 0 0 0 [] (-1)) example_hsv_to_rgb
      30 200 90 (by decide) (by decide) (by decide)⟩

/-! ## The four orientations -/

theorem decoded_xy_table (cfg : Config) (selector : Fin 4) (input : input_t) :
    decoded_xy cfg selector input
      = (to_int8 (table_of selector input).1, to_int8 (table_of selector input).2) := by
  unfold decoded_xy
  rw [decode_record_x, decode_record_y]

theorem to_int8_neg_to_int8 (d : Int) : to_int8 (-(to_int8 d)) = to_int8 (-d) := by
  unfold to_int8; omega

theorem to_int8_idem (d : Int) : to_int8 (to_int8 d) = to_int8 d := by
  unfold to_int8; omega

/-- C16: writing out_k for the (x, y) decoded under selector k, for every
input block and every k, out_((k+1) mod 4) is the quarter turn of out_k;
hence out_2 and out_3 are the half turns (negations) of out_0 and out_1, and
four successive quarter turns give back out_0; negation is taken in the
record's 8-bit arithmetic. -/
theorem C16_orientations_are_quarter_turns (cfg : Config) (input : input_t) (k : Fin 4) :
    decoded_xy cfg ((k + 1 : Fin 4) : Nat) input = quarter_turn (decoded_xy cfg (k : Nat) input) ∧
    decoded_xy cfg 2 input = half_turn (decoded_xy cfg 0 input) ∧
    decoded_xy cfg 3 input = half_turn (decoded_xy cfg 1 input) ∧
    quarter_turn (quarter_turn (quarter_turn (quarter_turn (decoded_xy cfg 0 input))))
      = decoded_xy cfg 0 input := by
  have h0 := decoded_xy_table cfg 0 input
  have h1 := decoded_xy_table cfg 1 input
  have h2 := decoded_xy_table cfg 2 input
  have h3 := decoded_xy_table cfg 3 input
  simp only [table_of, orientation_table, Fin.val_zero, Fin.val_one, Fin.val_two] at h0 h1 h2 h3
  have h3' : decoded_xy cfg 3 input = _ := h3
  refine ⟨?_, ?_, ?_, ?_⟩
  · fin_cases k
    · show decoded_xy cfg 1 input = quarter_turn (decoded_xy cfg 0 input)
      rw [h0, h1]; simp only [quarter_turn, to_int8_neg_to_int8, neg_sub]
    · show decoded_xy cfg 2 input = quarter_turn (decoded_xy cfg 1 input)
      rw [h1, h2]; simp only [quarter_turn, to_int8_neg_to_int8, neg_sub]
    · show decoded_xy cfg 3 input = quarter_turn (decoded_xy cfg 2 input)
      rw [h2, h3']; simp only [quarter_turn, to_int8_neg_to_int8, neg_sub]
    · show decoded_xy cfg 0 input = quarter_turn (decoded_xy cfg 3 input)
      rw [h0, h3']; simp only [quarter_turn, to_int8_neg_to_int8, neg_sub]
  · rw [h0, h2]; simp only [half_turn, to_int8_neg_to_int8, neg_sub]
  · rw [h1, h3']; simp only [half_turn, to_int8_neg_to_int8, neg_sub]
  · rw [h0]
    simp only [quarter_turn, to_int8_neg_to_int8, neg_neg, to_int8_idem]

/-! ## Type flags through the chain -/

theorem flags_subset_and (sub sup m : Nat) (h : flags_subset sub sup) :
    flags_subset (sub &&& m) sup := by
  unfold flags_subset at *
  rw [Nat.and_assoc, Nat.and_comm m sup, ← Nat.and_assoc, h]

theorem flags_subset_clear (sub sup flag : Nat) (h : flags_subset sub sup)
    (hf : sup &&& flag = 0) : sub &&& flag = 0 := by
  unfold flags_subset at h
  rw [← h, Nat.and_assoc, hf, Nat.and_zero]

/-- The flags that reach the pointer-report step are among those the chain
left. -/
theorem matrix_step_flags (cfg : Config) (record : trackball_record_t) (matrix : List Nat)
    (sup : Nat) (h : flags_subset record.type sup) :
    flags_subset (matrix_step cfg record matrix).1.type sup := by
  unfold matrix_step
  cases hm : cfg.TRACKBALL_MATRIX with
  | none => exact h
  | some rc =>
    obtain ⟨row, col⟩ := rc
    by_cases hb : record.type &&& TB_BUTTON ≠ 0
    · simp only [if_pos hb]
      exact flags_subset_and _ _ _ h
    · simp only [if_neg hb]
      exact h

/-- C17, as stated, fails: on a poll with change bit 0 and no motion the
decoder sets no flag, yet an override that sets both type bits and `pressed`
makes residual processing write the bound matrix bit (row 1 goes from 0xF0
to 0xF4) and, without a binding, the mouse-button bit (buttons go from 4
to 5). -/
theorem C17_handler_can_set_bits :
    (decode_record matrix_pointer_config
        (read_input matrix_pointer_config (bus_of 0 1 0 [0, 0, 0, 0, 0] 0)).2).type = 0 ∧
    (kb_setting_bits (decode_record matrix_pointer_config
        (read_input matrix_pointer_config (bus_of 0 1 0 [0, 0, 0, 0, 0] 0)).2)).1.type = TB_BOTH ∧
    example_world.matrix = [0, 0xF0] ∧
    (trackball_task matrix_pointer_config (bus_of 0 1 0 [0, 0, 0, 0, 0] 0)
        kb_setting_bits example_world).1.matrix = [0, 0xF4] ∧
    example_world.mouseReport.buttons = 4 ∧
    (trackball_task pointer_config (bus_of 0 1 0 [0, 0, 0, 0, 0] 0)
        kb_setting_bits example_world).1.mouseReport.buttons = 5 := by
  decide

/-- C17, amended: the driver acts on whatever type flags the chain leaves;
for every poll that produces an event and every linked handler chain that
leaves no flag set which the decoder had not set, the flags that reach the
pointer-report step are among the decoded ones, a poll whose change bit is 0
leaves the matrix and the report's buttons unchanged, and a poll decoded
with no motion leaves the report's displacement unchanged. -/
theorem C17_flags_only_cleared_when_handlers_comply (cfg : Config) (bus : Transport)
    (kb : kb_handler_t) (w : World) (h : triggered cfg bus)
    (hsub : flags_subset (kb (decode_record cfg (read_input cfg bus).2)).1.type
      (decode_record cfg (read_input cfg bus).2).type) :
    flags_subset
      (matrix_step cfg (kb (decode_record cfg (read_input cfg bus).2)).1 w.matrix).1.type
      (decode_record cfg (read_input cfg bus).2).type ∧
    ((read_input cfg bus).2.button.testBit 0 = false →
      (trackball_task cfg bus kb w).1.matrix = w.matrix ∧
      (trackball_task cfg bus kb w).1.mouseReport.buttons = w.mouseReport.buttons) ∧
    ((decode_record cfg (read_input cfg bus).2).x = 0 ∧
      (decode_record cfg (read_input cfg bus).2).y = 0 →
      (trackball_task cfg bus kb w).1.mouseReport.x = w.mouseReport.x ∧
      (trackball_task cfg bus kb w).1.mouseReport.y = w.mouseReport.y) := by
  refine ⟨matrix_step_flags cfg _ _ _ hsub, ?_, ?_⟩
  · intro hchange
    have hdec : (decode_record cfg (read_input cfg bus).2).type &&& TB_BUTTON = 0 := by
      by_contra hne
      have := (decode_record_button cfg _).mp hne
      rw [hchange] at this
      exact Bool.noConfusion this
    have hb := flags_subset_clear _ _ _ hsub hdec
    rw [task_matrix_triggered cfg bus kb w h, task_report_triggered cfg bus kb w h,
      matrix_step_no_button cfg _ _ hb]
    refine ⟨rfl, ?_⟩
    by_cases he : cfg.POINTING_DEVICE_ENABLE = true
    · rw [if_pos he]
      exact report_merge_buttons_kept cfg _ _ hb
    · rw [if_neg he]
  · intro hstill
    have hdec : (decode_record cfg (read_input cfg bus).2).type &&& TB_MOVED = 0 := by
      by_contra hne
      rcases (decode_record_moved cfg _).mp hne with hx | hy
      · exact hx hstill.1
      · exact hy hstill.2
    have hv := flags_subset_clear _ _ _ hsub hdec
    rw [task_report_triggered cfg bus kb w h]
    by_cases he : cfg.POINTING_DEVICE_ENABLE = true
    · rw [if_pos he]
      apply report_merge_motion_kept
      rw [(matrix_step_record cfg _ _).1]
      exact hv
    · rw [if_neg he]
      exact ⟨rfl, rfl⟩

/-- C17, amended, at a poll with change bit 0, state bit 1 and no motion
under the chain that clears TB_MOVED, with binding and pointer output. -/
theorem C17_flags_only_cleared_when_handlers_comply_witness :
    (triggered matrix_pointer_config (bus_of 0 1 0 [4, 4, 0, 0, 0x80] 0) ∧
     flags_subset (intercept_movement (decode_record matrix_pointer_config
        (read_input matrix_pointer_config (bus_of 0 1 0 [4, 4, 0, 0, 0x80] 0)).2)).1.type
      (decode_record matrix_pointer_config
        (read_input matrix_pointer_config (bus_of 0 1 0 [4, 4, 0, 0, 0x80] 0)).2).type ∧
     (read_input matrix_pointer_config
        (bus_of 0 1 0 [4, 4, 0, 0, 0x80] 0)).2.button.testBit 0 = false) ∧
    (flags_subset
      (matrix_step matrix_pointer_config (intercept_movement (decode_record matrix_pointer_config
        (read_input matrix_pointer_config (bus_of 0 1 0 [4, 4, 0, 0, 0x80] 0)).2)).1
        example_world.matrix).1.type
      (decode_record matrix_pointer_config
        (read_input matrix_pointer_config (bus_of 0 1 0 [4, 4, 0, 0, 0x80] 0)).2).type ∧
    ((read_input matrix_pointer_config
        (bus_of 0 1 0 [4, 4, 0, 0, 0x80] 0)).2.button.testBit 0 = false →
      (trackball_task matrix_pointer_config (bus_of 0 1 0 [4, 4, 0, 0, 0x80] 0)
        intercept_movement example_world).1.matrix = example_world.matrix ∧
      (trackball_task matrix_pointer_config (bus_of 0 1 0 [4, 4, 0, 0, 0x80] 0)
        intercept_movement example_world).1.mouseReport.buttons
        = example_world.mouseReport.buttons) ∧
    ((decode_record matrix_pointer_config
        (read_input matrix_pointer_config (bus_of 0 1 0 [4, 4, 0, 0, 0x80] 0)).2).x = 0 ∧
      (decode_record matrix_pointer_config
        (read_input matrix_pointer_config (bus_of 0 1 0 [4, 4, 0, 0, 0x80] 0)).2).y = 0 →
      (trackball_task matrix_pointer_config (bus_of 0 1 0 [4, 4, 0, 0, 0x80] 0)
        intercept_movement example_world).1.mouseReport.x = example_world.mouseReport.x ∧
      (trackball_task matrix_pointer_config (bus_of 0 1 0 [4, 4, 0, 0, 0x80] 0)
        intercept_movement example_world).1.mouseReport.y = example_world.mouseReport.y)) :=
  ⟨by decide,
    C17_flags_only_cleared_when_handlers_comply matrix_pointer_config
      (bus_of 0 1 0 [4, 4, 0, 0, 0x80] 0) intercept_movement example_world
      (by decide) (by decide)⟩

/-- C18: with POINTING_DEVICE_ENABLE, for every poll that produces an event
and every linked handler chain that returns the record with TB_MOVED set and
displacement (x', y'), provided prior x + x' and prior y + y' lie in
-128..127, the one report written back has x = prior x + x' and
y = prior y + y', and its buttons are the prior ones when the chain leaves
TB_BUTTON clear. -/
theorem C18_report_receives_handler_motion (cfg : Config) (bus : Transport)
    (kb : kb_handler_t) (w : World)
    (he : cfg.POINTING_DEVICE_ENABLE = true) (h : triggered cfg bus)
    (hmoved : (kb (decode_record cfg (read_input cfg bus).2)).1.type &&& TB_MOVED ≠ 0)
    (hx : -128 ≤ w.mouseReport.x + (kb (decode_record cfg (read_input cfg bus).2)).1.x ∧
      w.mouseReport.x + (kb (decode_record cfg (read_input cfg bus).2)).1.x ≤ 127)
    (hy : -128 ≤ w.mouseReport.y + (kb (decode_record cfg (read_input cfg bus).2)).1.y ∧
      w.mouseReport.y + (kb (decode_record cfg (read_input cfg bus).2)).1.y ≤ 127) :
    ∃ rep, set_report_calls (trackball_task cfg bus kb w).2 = [rep] ∧
      (trackball_task cfg bus kb w).1.mouseReport = rep ∧
      rep.x = w.mouseReport.x + (kb (decode_record cfg (read_input cfg bus).2)).1.x ∧
      rep.y = w.mouseReport.y + (kb (decode_record cfg (read_input cfg bus).2)).1.y ∧
      ((kb (decode_record cfg (read_input cfg bus).2)).1.type &&& TB_BUTTON = 0 →
        rep.buttons = w.mouseReport.buttons) := by
  obtain ⟨hcalls, hrx, hry, hbtn⟩ := moved_report cfg bus kb w he h hmoved
  refine ⟨_, hcalls, rfl, ?_, ?_, hbtn⟩
  · rw [hrx]; exact to_int8_of_range _ hx.1 hx.2
  · rw [hry]; exact to_int8_of_range _ hy.1 hy.2

/-- C18 at a decoded motion (1, 0) under the accelerating
`process_trackball_user`, with x = 7 pending before: the record reaches the
report as (20, 0) and the report written back has displacement (27, -3). -/
theorem C18_report_receives_handler_motion_witness :
    (triggered pointer_config (bus_of 0 1 0 [0, 1, 0, 0, 0] 0) ∧
     decoded_xy pointer_config 0
        (read_input pointer_config (bus_of 0 1 0 [0, 1, 0, 0, 0] 0)).2 = (1, 0) ∧
     (process_trackball_kb custom_acceleration (decode_record pointer_config
        (read_input pointer_config (bus_of 0 1 0 [0, 1, 0, 0, 0] 0)).2)).1
       = { x := 20, y := 0, pressed := false, type := TB_MOVED } ∧
     (trackball_task pointer_config (bus_of 0 1 0 [0, 1, 0, 0, 0] 0)
        (process_trackball_kb custom_acceleration)
        { example_world with mouseReport := { buttons := 4, x := 7, y := -3 } }).1.mouseReport
       = { buttons := 4, x := 27, y := -3 }) ∧
    ∃ rep, set_report_calls (trackball_task pointer_config (bus_of 0 1 0 [0, 1, 0, 0, 0] 0)
        (process_trackball_kb custom_acceleration)
        { example_world with mouseReport := { buttons := 4, x := 7, y := -3 } }).2 = [rep] ∧
      (trackball_task pointer_config (bus_of 0 1 0 [0, 1, 0, 0, 0] 0)
        (process_trackball_kb custom_acceleration)
        { example_world with mouseReport := { buttons := 4, x := 7, y := -3 } }).1.mouseReport
        = rep ∧
      rep.x = ({ example_world with
          mouseReport := { buttons := 4, x := 7, y := -3 } } : World).mouseReport.x +
        (process_trackball_kb custom_acceleration (decode_record pointer_config
          (read_input pointer_config (bus_of 0 1 0 [0, 1, 0, 0, 0] 0)).2)).1.x ∧
      rep.y = ({ example_world with
          mouseReport := { buttons := 4, x := 7, y := -3 } } : World).mouseReport.y +
        (process_trackball_kb custom_acceleration (decode_record pointer_config
          (read_input pointer_config (bus_of 0 1 0 [0, 1, 0, 0, 0] 0)).2)).1.y ∧
      ((process_trackball_kb custom_acceleration (decode_record pointer_config
          (read_input pointer_config (bus_of 0 1 0 [0, 1, 0, 0, 0] 0)).2)).1.type
          &&& TB_BUTTON = 0 →
        rep.buttons = ({ example_world with
          mouseReport := { buttons := 4, x := 7, y := -3 } } : World).mouseReport.buttons) :=
  ⟨by decide,
    C18_report_receives_handler_motion pointer_config (bus_of 0 1 0 [0, 1, 0, 0, 0] 0)
      (process_trackball_kb custom_acceleration)
      { example_world with mouseReport := { buttons := 4, x := 7, y := -3 } }
      rfl (by decide) (by decide) (by decide) (by decide)⟩

/-! ## No motion lost -/

theorem to_int8_sub_eq_zero (a b : Nat) (ha : a < 256) (hb : b < 256) :
    to_int8 ((a : Int) - (b : Int)) = 0 ↔ a = b := by
  unfold to_int8
  constructor <;> intro h <;> omega

/-- The decoded x and y under whichever selector is configured. -/
theorem decode_record_xy_cases (cfg : Config) (input : input_t) :
    ((decode_record cfg input).x, (decode_record cfg input).y) =
      if cfg.TRACKBALL_ORIENTATION = 0 then
        (to_int8 ((input.right : Int) - (input.left : Int)),
         to_int8 ((input.down : Int) - (input.up : Int)))
      else if cfg.TRACKBALL_ORIENTATION = 1 then
        (to_int8 ((input.up : Int) - (input.down : Int)),
         to_int8 ((input.right : Int) - (input.left : Int)))
      else if cfg.TRACKBALL_ORIENTATION = 2 then
        (to_int8 ((input.left : Int) - (input.right : Int)),
         to_int8 ((input.up : Int) - (input.down : Int)))
      else
        (to_int8 ((input.down : Int) - (input.up : Int)),
         to_int8 ((input.left : Int) - (input.right : Int))) := by
  unfold decode_record
  simp only []
  split_ifs <;> simp

/-- For a block of bytes, the decoded x or y is non-zero exactly when the
raw magnitudes differ on one of the two axes. -/
theorem decode_record_nonzero_iff (cfg : Config) (input : input_t)
    (hl : input.left < 256) (hr : input.right < 256) (hu : input.up < 256)
    (hd : input.down < 256) :
    ((decode_record cfg input).x ≠ 0 ∨ (decode_record cfg input).y ≠ 0) ↔
      (input.left ≠ input.right ∨ input.up ≠ input.down) := by
  have hxy := decode_record_xy_cases cfg input
  have e1 := to_int8_sub_eq_zero input.right input.left hr hl
  have e2 := to_int8_sub_eq_zero input.down input.up hd hu
  have e3 := to_int8_sub_eq_zero input.up input.down hu hd
  have e4 := to_int8_sub_eq_zero input.left input.right hl hr
  split_ifs at hxy <;>
    · obtain ⟨hx, hy⟩ := Prod.mk.inj hxy
      rw [hx, hy]
      simp only [ne_eq, e1, e2, e3, e4]
      try (constructor <;> intro h <;> rcases h with h | h <;> omega)

/-- C19: for every selector and every input block read on a poll that
produces an event, the record handed to `process_trackball_kb` has TB_MOVED
set if and only if left differs from right or up differs from down in the
raw block; no difference of bytes, however large, narrows to 0. -/
theorem C19_moved_iff_raw_differs (cfg : Config) (bus : Transport) (kb : kb_handler_t)
    (w : World) (h : triggered cfg bus) :
    ∃ r, kb_calls (trackball_task cfg bus kb w).2 = [r] ∧
      (r.type &&& TB_MOVED ≠ 0 ↔
        ((read_input cfg bus).2.left ≠ (read_input cfg bus).2.right ∨
         (read_input cfg bus).2.up ≠ (read_input cfg bus).2.down)) := by
  obtain ⟨hl, hr, hu, hd, _⟩ := read_input_bytes cfg bus
  exact ⟨_, kb_calls_triggered cfg bus kb w h,
    (decode_record_moved cfg _).trans (decode_record_nonzero_iff cfg _ hl hr hu hd)⟩

/-- C19 at the block with left=255 and right=0 under selector 2: the
difference 255 is decoded as x = -1 and TB_MOVED is set. -/
theorem C19_moved_iff_raw_differs_witness :
    (triggered (with_orientation default_config 2) (bus_of 0 1 0 [255, 0, 0, 0, 0] 0) ∧
     kb_calls (trackball_task (with_orientation default_config 2)
        (bus_of 0 1 0 [255, 0, 0, 0, 0] 0) default_chain example_world).2
       = [{ x := -1, y := 0, pressed := false, type := TB_MOVED }]) ∧
    ∃ r, kb_calls (trackball_task (with_orientation default_config 2)
        (bus_of 0 1 0 [255, 0, 0, 0, 0] 0) default_chain example_world).2 = [r] ∧
      (r.type &&& TB_MOVED ≠ 0 ↔
        ((read_input (with_orientation default_config 2)
            (bus_of 0 1 0 [255, 0, 0, 0, 0] 0)).2.left ≠
          (read_input (with_orientation default_config 2)
            (bus_of 0 1 0 [255, 0, 0, 0, 0] 0)).2.right ∨
         (read_input (with_orientation default_config 2)
            (bus_of 0 1 0 [255, 0, 0, 0, 0] 0)).2.up ≠
          (read_input (with_orientation default_config 2)
            (bus_of 0 1 0 [255, 0, 0, 0, 0] 0)).2.down)) :=
  ⟨by decide,
    C19_moved_iff_raw_differs (with_orientation default_config 2)
      (bus_of 0 1 0 [255, 0, 0, 0, 0] 0) default_chain example_world (by decide)⟩

/-! ## The frame of the matrix step -/

/-- Every bit other than the bound one survives the two assignments of lines
104-105, for a row word that fits the row type. -/
theorem written_other_bit (bits col m i : Nat) (pressed : Bool) (hi : i ≠ col)
    (hfit : m < 2 ^ bits) :
    (((m &&& lnot_bits bits (MATRIX_ROW_SHIFTER <<< col)) |||
        (if pressed then MATRIX_ROW_SHIFTER <<< col else 0)) % 2 ^ bits).testBit i
      = m.testBit i := by
  have hs : (MATRIX_ROW_SHIFTER <<< col).testBit i = false := by
    rw [MATRIX_ROW_SHIFTER, Nat.one_shiftLeft, Nat.testBit_two_pow]
    exact decide_eq_false (fun h => hi h.symm)
  by_cases hlt : i < bits
  · cases pressed <;> simp [lnot_bits, hs, hlt]
  · have hm : m.testBit i = false :=
      Nat.testBit_lt_two_pow
        (lt_of_lt_of_le hfit (Nat.pow_le_pow_right (by decide) (Nat.le_of_not_lt hlt)))
    simp [hlt, hm]

theorem getD_set_other (l : List Nat) (row r v : Nat) (h : r ≠ row) :
    (l.set row v).getD r 0 = l.getD r 0 := by
  rw [List.getD_eq_getElem?_getD, List.getD_eq_getElem?_getD,
    List.getElem?_set_ne (fun e => h e.symm)]

theorem getD_set_self (l : List Nat) (row v : Nat) (h : row < l.length) :
    (l.set row v).getD row 0 = v := by
  rw [List.getD_eq_getElem _ _ (by rw [List.length_set]; exact h), List.getElem_set_self]

/-- With a binding inside the matrix, the matrix step keeps the number of
rows, every other row, and every bit of the bound row other than the bound
one. -/
theorem matrix_step_frame (cfg : Config) (record : trackball_record_t) (matrix : List Nat)
    (row col : Nat) (hm : cfg.TRACKBALL_MATRIX = some (row, col))
    (hr : row < matrix.length) (hfit : matrix.getD row 0 < 2 ^ cfg.MATRIX_ROW_BITS) :
    (matrix_step cfg record matrix).2.length = matrix.length ∧
    (∀ r, r ≠ row → (matrix_step cfg record matrix).2.getD r 0 = matrix.getD r 0) ∧
    (∀ i, i ≠ col → ((matrix_step cfg record matrix).2.getD row 0).testBit i
        = (matrix.getD row 0).testBit i) := by
  by_cases hb : record.type &&& TB_BUTTON ≠ 0
  · unfold matrix_step
    rw [hm]
    simp only [if_pos hb]
    refine ⟨List.length_set _ _ _, fun r hne => getD_set_other _ _ _ _ hne, fun i hi => ?_⟩
    rw [getD_set_self _ _ _ hr]
    exact written_other_bit _ _ _ _ _ hi hfit
  · rw [matrix_step_no_button cfg _ _ (not_not.mp hb)]
    exact ⟨rfl, fun _ _ => rfl, fun _ _ => rfl⟩

/-- C20: with a matrix binding whose row is inside the matrix and whose
column is below the row word's width, for every prior matrix (the bound row a
value of the row type), every transport behaviour and every linked handler
chain, after `trackball_task` the matrix has the same rows, every row other
than TRACKBALL_MATRIX_ROW is unchanged and every bit of that row other than
bit TRACKBALL_MATRIX_COL is unchanged; on a poll that produces an event the
bound bit equals the record's `pressed` if TB_BUTTON was still set after the
chain and is unchanged otherwise, and on a poll without an event it is
unchanged. -/
theorem C20_matrix_injection_one_bit (cfg : Config) (bus : Transport) (kb : kb_handler_t)
    (w : World) (row col : Nat) (hm : cfg.TRACKBALL_MATRIX = some (row, col))
    (hr : row < w.matrix.length) (hc : col < cfg.MATRIX_ROW_BITS)
    (hfit : w.matrix.getD row 0 < 2 ^ cfg.MATRIX_ROW_BITS) :
    (trackball_task cfg bus kb w).1.matrix.length = w.matrix.length ∧
    (∀ r, r ≠ row → (trackball_task cfg bus kb w).1.matrix.getD r 0 = w.matrix.getD r 0) ∧
    (∀ i, i ≠ col → ((trackball_task cfg bus kb w).1.matrix.getD row 0).testBit i
        = (w.matrix.getD row 0).testBit i) ∧
    (triggered cfg bus →
      ((kb (decode_record cfg (read_input cfg bus).2)).1.type &&& TB_BUTTON ≠ 0 →
        ((trackball_task cfg bus kb w).1.matrix.getD row 0).testBit col
          = (kb (decode_record cfg (read_input cfg bus).2)).1.pressed) ∧
      ((kb (decode_record cfg (read_input cfg bus).2)).1.type &&& TB_BUTTON = 0 →
        ((trackball_task cfg bus kb w).1.matrix.getD row 0).testBit col
          = (w.matrix.getD row 0).testBit col)) ∧
    (¬ triggered cfg bus →
      ((trackball_task cfg bus kb w).1.matrix.getD row 0).testBit col
        = (w.matrix.getD row 0).testBit col) := by
  by_cases h : triggered cfg bus
  · obtain ⟨f1, f2, f3⟩ :=
      matrix_step_frame cfg (kb (decode_record cfg (read_input cfg bus).2)).1 w.matrix row col
        hm hr hfit
    rw [task_matrix_triggered cfg bus kb w h]
    refine ⟨f1, f2, f3, fun _ => ⟨fun hb => ?_, fun hb => ?_⟩, fun hn => absurd h hn⟩
    · exact matrix_step_bound_bit cfg _ _ row col hm hb hr hc
    · rw [matrix_step_no_button cfg _ _ hb]
  · rw [trackball_task_not_triggered cfg bus kb w h]
    exact ⟨rfl, fun _ _ => rfl, fun _ _ => rfl, fun ht => absurd ht h, fun _ => rfl⟩

/-- C20 at a release edge (button byte 0x01) with the binding at row 1,
column 4 of the matrix [0x0F, 0xF0], under the default chain: row 1 becomes
0xE0 and row 0 stays. -/
theorem C20_matrix_injection_one_bit_witness :
    (triggered { TRACKBALL_MATRIX := some (1, 4), POINTING_DEVICE_ENABLE := true }
        (bus_of 0 1 0 [0, 0, 0, 0, 0x01] 0) ∧
     (trackball_task { TRACKBALL_MATRIX := some (1, 4), POINTING_DEVICE_ENABLE := true }
        (bus_of 0 1 0 [0, 0, 0, 0, 0x01] 0) default_chain
        { example_world with matrix := [0x0F, 0xF0] }).1.matrix = [0x0F, 0xE0]) ∧
    ((trackball_task { TRACKBALL_MATRIX := some (1, 4), POINTING_DEVICE_ENABLE := true }
        (bus_of 0 1 0 [0, 0, 0, 0, 0x01] 0) default_chain
        { example_world with matrix := [0x0F, 0xF0] }).1.matrix.length
      = ({ example_world with matrix := [0x0F, 0xF0] } : World).matrix.length ∧
    (∀ r, r ≠ 1 →
      (trackball_task { TRACKBALL_MATRIX := some (1, 4), POINTING_DEVICE_ENABLE := true }
        (bus_of 0 1 0 [0, 0, 0, 0, 0x01] 0) default_chain
        { example_world with matrix := [0x0F, 0xF0] }).1.matrix.getD r 0
      = ({ example_world with matrix := [0x0F, 0xF0] } : World).matrix.getD r 0) ∧
    (∀ i, i ≠ 4 →
      ((trackball_task { TRACKBALL_MATRIX := some (1, 4), POINTING_DEVICE_ENABLE := true }
        (bus_of 0 1 0 [0, 0, 0, 0, 0x01] 0) default_chain
        { example_world with matrix := [0x0F, 0xF0] }).1.matrix.getD 1 0).testBit i
      = (({ example_world with matrix := [0x0F, 0xF0] } : World).matrix.getD 1 0).testBit i) ∧
    (triggered { TRACKBALL_MATRIX := some (1, 4), POINTING_DEVICE_ENABLE := true }
        (bus_of 0 1 0 [0, 0, 0, 0, 0x01] 0) →
      ((default_chain (decode_record
          { TRACKBALL_MATRIX := some (1, 4), POINTING_DEVICE_ENABLE := true }
          (read_input { TRACKBALL_MATRIX := some (1, 4), POINTING_DEVICE_ENABLE := true }
            (bus_of 0 1 0 [0, 0, 0, 0, 0x01] 0)).2)).1.type &&& TB_BUTTON ≠ 0 →
        ((trackball_task { TRACKBALL_MATRIX := some (1, 4), POINTING_DEVICE_ENABLE := true }
          (bus_of 0 1 0 [0, 0, 0, 0, 0x01] 0) default_chain
          { example_world with matrix := [0x0F, 0xF0] }).1.matrix.getD 1 0).testBit 4
          = (default_chain (decode_record
              { TRACKBALL_MATRIX := some (1, 4), POINTING_DEVICE_ENABLE := true }
              (read_input { TRACKBALL_MATRIX := some (1, 4), POINTING_DEVICE_ENABLE := true }
                (bus_of 0 1 0 [0, 0, 0, 0, 0x01] 0)).2)).1.pressed) ∧
      ((default_chain (decode_record
          { TRACKBALL_MATRIX := some (1, 4), POINTING_DEVICE_ENABLE := true }
          (read_input { TRACKBALL_MATRIX := some (1, 4), POINTING_DEVICE_ENABLE := true }
            (bus_of 0 1 0 [0, 0, 0, 0, 0x01] 0)).2)).1.type &&& TB_BUTTON = 0 →
        ((trackball_task { TRACKBALL_MATRIX := some (1, 4), POINTING_DEVICE_ENABLE := true }
          (bus_of 0 1 0 [0, 0, 0, 0, 0x01] 0) default_chain
          { example_world with matrix := [0x0F, 0xF0] }).1.matrix.getD 1 0).testBit 4
          = (({ example_world with matrix := [0x0F, 0xF0] } : World).matrix.getD 1 0).testBit 4))
      ∧
    (¬ triggered { TRACKBALL_MATRIX := some (1, 4), POINTING_DEVICE_ENABLE := true }
        (bus_of 0 1 0 [0, 0, 0, 0, 0x01] 0) →
      ((trackball_task { TRACKBALL_MATRIX := some (1, 4), POINTING_DEVICE_ENABLE := true }
        (bus_of 0 1 0 [0, 0, 0, 0, 0x01] 0) default_chain
        { example_world with matrix := [0x0F, 0xF0] }).1.matrix.getD 1 0).testBit 4
        = (({ example_world with matrix := [0x0F, 0xF0] } : World).matrix.getD 1 0).testBit 4)) :=
  ⟨by decide,
    C20_matrix_injection_one_bit
      { TRACKBALL_MATRIX := some (1, 4), POINTING_DEVICE_ENABLE := true }
      (bus_of 0 1 0 [0, 0, 0, 0, 0x01] 0) default_chain
      { example_world with matrix := [0x0F, 0xF0] } 1 4 rfl (by decide) (by decide) (by decide)⟩

end Pimoroni
